import Mathlib

/-!
Verification of the openrgb-rs client library's wire codec, packet framing,
protocol negotiation and version gating, as a shallow embedding in Lean.

A byte stream is a `List Nat` (each element a byte value `< 256`); readers
take a stream and return `Except` of the decoded value and the remaining
stream, mirroring the `OpenRGBReadable` implementations; writers return the
bytes they would send, in an `Except` when the source write is fallible.
Machine integers are `Nat`/`Int` with explicit bounds or `% 2^w` where the
source truncates.
-/

deriving instance DecidableEq for Except

/-- Mode flags, from `data/mode_flag.rs` (`flags! { pub enum ModeFlag : u32 }`). -/
inductive ModeFlag
  | HasSpeed
  | HasDirectionLR
  | HasDirectionUD
  | HasDirectionHV
  | HasDirection
  | HasBrightness
  | HasPerLEDColor
  | HasModeSpecificColor
  | HasRandomColor
  | ManualSave
  | AutomaticSave
deriving DecidableEq

/-- Bit values of each flag, from `data/mode_flag.rs` lines 15-48
(`HasDirection` is the union `LR | UD | HV` = 0b1110). -/
def ModeFlag.bits : ModeFlag → Nat
  | .HasSpeed => 1
  | .HasDirectionLR => 2
  | .HasDirectionUD => 4
  | .HasDirectionHV => 8
  | .HasDirection => 14
  | .HasBrightness => 16
  | .HasPerLEDColor => 32
  | .HasModeSpecificColor => 64
  | .HasRandomColor => 128
  | .ManualSave => 256
  | .AutomaticSave => 512

/-- Bit index of each atomic flag (`HasDirection` is composite; its entry is unused). -/
def ModeFlag.bitIdx : ModeFlag → Nat
  | .HasSpeed => 0
  | .HasDirectionLR => 1
  | .HasDirectionUD => 2
  | .HasDirectionHV => 3
  | .HasDirection => 0
  | .HasBrightness => 4
  | .HasPerLEDColor => 5
  | .HasModeSpecificColor => 6
  | .HasRandomColor => 7
  | .ManualSave => 8
  | .AutomaticSave => 9

/-- The OR of all defined flag bits (`FlagSet::full()` for `ModeFlag`): bits 0-9. -/
def modeFlagFull : Nat := 1023

/-- A `FlagSet<ModeFlag>` value is its `u32` bit representation; `contains`
is `self & flag == flag` (the `flagset` crate's subset test). -/
def flagContains (set : Nat) (f : ModeFlag) : Bool := set &&& f.bits == f.bits

/-- `Direction`, from `data/direction.rs` (ordinals 0-5; `Default` is `Left`). -/
inductive Direction
  | left
  | right
  | up
  | down
  | horizontal
  | vertical
deriving DecidableEq

def Direction.toNat : Direction → Nat
  | .left => 0
  | .right => 1
  | .up => 2
  | .down => 3
  | .horizontal => 4
  | .vertical => 5

/-- `Direction::from_u32` (the `Primitive` derive's partial inverse). -/
def Direction.ofNat? : Nat → Option Direction
  | 0 => some .left
  | 1 => some .right
  | 2 => some .up
  | 3 => some .down
  | 4 => some .horizontal
  | 5 => some .vertical
  | _ => none

/-- `ColorMode`, from `data/color_mode.rs` (ordinals 0-3; `Default` is `None`). -/
inductive ColorMode
  | noColor
  | perLED
  | modeSpecific
  | random
deriving DecidableEq

def ColorMode.toNat : ColorMode → Nat
  | .noColor => 0
  | .perLED => 1
  | .modeSpecific => 2
  | .random => 3

def ColorMode.ofNat? : Nat → Option ColorMode
  | 0 => some .noColor
  | 1 => some .perLED
  | 2 => some .modeSpecific
  | 3 => some .random
  | _ => none

/-- `DeviceType`, from `data/device_type.rs` (ordinals 0-14). -/
inductive DeviceType
  | motherboard
  | dram
  | gpu
  | cooler
  | ledStrip
  | keyboard
  | mouse
  | mouseMat
  | headset
  | headsetStand
  | gamepad
  | light
  | speaker
  | virtualDevice
  | unknown
deriving DecidableEq

def DeviceType.toNat : DeviceType → Nat
  | .motherboard => 0
  | .dram => 1
  | .gpu => 2
  | .cooler => 3
  | .ledStrip => 4
  | .keyboard => 5
  | .mouse => 6
  | .mouseMat => 7
  | .headset => 8
  | .headsetStand => 9
  | .gamepad => 10
  | .light => 11
  | .speaker => 12
  | .virtualDevice => 13
  | .unknown => 14

/-- `DeviceType::from_u32(..).unwrap_or(DeviceType::Unknown)`: unknown ordinals
fall back to `unknown` (`data/device_type.rs` line 75). -/
def DeviceType.fromU32 : Nat → DeviceType
  | 0 => .motherboard
  | 1 => .dram
  | 2 => .gpu
  | 3 => .cooler
  | 4 => .ledStrip
  | 5 => .keyboard
  | 6 => .mouse
  | 7 => .mouseMat
  | 8 => .headset
  | 9 => .headsetStand
  | 10 => .gamepad
  | 11 => .light
  | 12 => .speaker
  | 13 => .virtualDevice
  | _ => .unknown

/-- `ZoneType`, from `data/zone_type.rs` (ordinals 0-2). -/
inductive ZoneType
  | single
  | linear
  | matrix
deriving DecidableEq

def ZoneType.toNat : ZoneType → Nat
  | .single => 0
  | .linear => 1
  | .matrix => 2

def ZoneType.ofNat? : Nat → Option ZoneType
  | 0 => some .single
  | 1 => some .linear
  | 2 => some .matrix
  | _ => none

/-- `PacketId`, from `data/packet.rs` (the closed packet-identifier enumeration). -/
inductive PacketId
  | RequestControllerCount
  | RequestControllerData
  | RequestProtocolVersion
  | SetClientName
  | DeviceListUpdated
  | RequestProfileList
  | RequestSaveProfile
  | RequestLoadProfile
  | RequestDeleteProfile
  | RGBControllerResizeZone
  | RGBControllerUpdateLeds
  | RGBControllerUpdateZoneLeds
  | RGBControllerUpdateSingleLed
  | RGBControllerSetCustomMode
  | RGBControllerUpdateMode
  | RGBControllerSaveMode
deriving DecidableEq

def PacketId.toNat : PacketId → Nat
  | .RequestControllerCount => 0
  | .RequestControllerData => 1
  | .RequestProtocolVersion => 40
  | .SetClientName => 50
  | .DeviceListUpdated => 100
  | .RequestProfileList => 150
  | .RequestSaveProfile => 151
  | .RequestLoadProfile => 152
  | .RequestDeleteProfile => 153
  | .RGBControllerResizeZone => 1000
  | .RGBControllerUpdateLeds => 1050
  | .RGBControllerUpdateZoneLeds => 1051
  | .RGBControllerUpdateSingleLed => 1052
  | .RGBControllerSetCustomMode => 1100
  | .RGBControllerUpdateMode => 1101
  | .RGBControllerSaveMode => 1102

def PacketId.ofNat? : Nat → Option PacketId
  | 0 => some .RequestControllerCount
  | 1 => some .RequestControllerData
  | 40 => some .RequestProtocolVersion
  | 50 => some .SetClientName
  | 100 => some .DeviceListUpdated
  | 150 => some .RequestProfileList
  | 151 => some .RequestSaveProfile
  | 152 => some .RequestLoadProfile
  | 153 => some .RequestDeleteProfile
  | 1000 => some .RGBControllerResizeZone
  | 1050 => some .RGBControllerUpdateLeds
  | 1051 => some .RGBControllerUpdateZoneLeds
  | 1052 => some .RGBControllerUpdateSingleLed
  | 1100 => some .RGBControllerSetCustomMode
  | 1101 => some .RGBControllerUpdateMode
  | 1102 => some .RGBControllerSaveMode
  | _ => none

/-- `Color` (`rgb::RGB8`): three 8-bit channels, no padding in memory. -/
structure Color where
  r : Nat
  g : Nat
  b : Nat
deriving DecidableEq

/-- Operation name used by `check_protocol_version_profile_control` (`client.rs` line 284). -/
def profileControlName : String := "Profile control"

/-- Operation name used by `check_protocol_version_saving_modes` (`client.rs` line 295). -/
def savingModesName : String := "Saving modes"

/-- `OpenRGBError` from `error.rs`, with each `ProtocolError(format!(..))` site
modelled as a structured constructor carrying the formatted arguments. -/
inductive OpenRGBErr
  /-- An I/O failure (`CommunicationError`), e.g. reading past the end of the stream. -/
  | commError
  /-- `protocol.rs` line 24: "expected OpenRGB magic value, got {c}" — the source
  passes the loop variable `c` (the expected magic byte) as the argument. -/
  | magicMismatch (reported : Nat)
  /-- `protocol.rs` line 30: "expected device ID {expected}, got {got}". -/
  | deviceIdMismatch (expected got : Nat)
  /-- `protocol.rs` line 35: "expected packet ID {expected}, got {got}". -/
  | packetIdMismatch (expected got : PacketId)
  /-- `data/packet.rs` line 80: "unknown packed ID {id}". -/
  | unknownPacketId (id : Nat)
  /-- `data/direction.rs` line 56 and `data/mode.rs` line 87: "unknown direction {id}". -/
  | unknownDirection (id : Nat)
  /-- `data/color_mode.rs` line 52: "unknown color mode {id}". -/
  | unknownColorMode (id : Nat)
  /-- `data/zone_type.rs` line 43: "unknown zone type {id}". -/
  | unknownZoneType (id : Nat)
  /-- `data/mode_flag.rs` line 66: "Received invalid mode flag set: {value} (..)". -/
  | invalidFlagSet (value : Nat)
  /-- `data/string.rs` line 30: "Failed decoding string as UTF-8: ..". -/
  | invalidUtf8
  /-- `data/vec.rs` line 17: "Vec is too large to encode: ..". -/
  | vecTooLarge
  /-- `data/primitive.rs` line 109: "Data size is too large to encode: {n} (..)". -/
  | dataSizeTooLarge (n : Nat)
  /-- `error.rs` `UnsupportedOperation { operation, current_protocol_version, min_protocol_version }`. -/
  | unsupportedOperation (operation : String) (currentVersion minVersion : Nat)
deriving DecidableEq

/-- Result of a reader: the decoded value and the remaining stream, or an error. -/
abbrev RdResult (α : Type) : Type := Except OpenRGBErr (α × List Nat)

/-- `read_u8`: one byte off the stream; end of stream is an I/O error. -/
def readU8 : List Nat → RdResult Nat
  | [] => .error .commError
  | b :: rest => .ok (b, rest)

/-- `read_u16_le`: two bytes, little-endian. -/
def readU16 (s : List Nat) : Except OpenRGBErr (Nat × List Nat) := do
  let (b0, s) ← readU8 s
  let (b1, s) ← readU8 s
  .ok (b0 + 256 * b1, s)

/-- `read_u32_le`: four bytes, little-endian. -/
def readU32 (s : List Nat) : Except OpenRGBErr (Nat × List Nat) := do
  let (b0, s) ← readU8 s
  let (b1, s) ← readU8 s
  let (b2, s) ← readU8 s
  let (b3, s) ← readU8 s
  .ok (b0 + 256 * (b1 + 256 * (b2 + 256 * b3)), s)

/-- `read_i32_le`: four bytes, little-endian, two's complement. -/
def readI32 (s : List Nat) : Except OpenRGBErr (Int × List Nat) := do
  let (n, s) ← readU32 s
  .ok (if n < 2147483648 then (n : Int) else (n : Int) - 4294967296, s)

/-- `usize` decode (`primitive.rs` line 118): read a `u32`, widen. -/
def readUsize (s : List Nat) : RdResult Nat := readU32 s

/-- unit decode (`primitive.rs` line 23): consumes nothing. -/
def readUnit (s : List Nat) : RdResult Unit := .ok ((), s)

/-- `read_exact` into a buffer of `n` bytes. -/
def readExact (n : Nat) (s : List Nat) : RdResult (List Nat) :=
  if n ≤ s.length then .ok (s.take n, s.drop n) else .error .commError

/-- `write_u8`. -/
def encodeU8 (n : Nat) : List Nat := [n]

/-- `write_u16_le`: the argument is a `u16` (`< 2^16`) at every source call site. -/
def encodeU16 (n : Nat) : List Nat := [n % 256, n / 256 % 256]

/-- `write_u32_le`: the argument is a `u32` (`< 2^32`) at every source call site. -/
def encodeU32 (n : Nat) : List Nat :=
  [n % 256, n / 256 % 256, n / 65536 % 256, n / 16777216 % 256]

/-- `write_i32_le`: two's complement little-endian. -/
def encodeI32 (v : Int) : List Nat := encodeU32 (v % 4294967296).toNat

/-- `usize` encode (`primitive.rs` lines 106-112): `u32::try_from` then 4 bytes;
values that do not fit a `u32` are a protocol error, not a truncation. -/
def encodeUsize (n : Nat) : Except OpenRGBErr (List Nat) :=
  if n < 4294967296 then .ok (encodeU32 n) else .error (.dataSizeTooLarge n)

/-- unit encode: writes nothing. -/
def encodeUnit : List Nat := []

/-- Number of characters a UTF-8 byte string spells: its non-continuation bytes
(equals `String::chars().count()` on valid UTF-8). -/
def utf8CharCount (s : List Nat) : Nat :=
  (s.filter (fun b => !(128 ≤ b && b < 192))).length

/-- Is `b` a UTF-8 continuation byte (`0x80-0xBF`)? -/
def utf8Cont (b : Nat) : Bool := 128 ≤ b && b < 192

/-- Validity of a byte list as UTF-8, the check `String::from_utf8` performs
(rejecting overlong forms, surrogates, and values above U+10FFFF). -/
def validUtf8 : List Nat → Bool
  | [] => true
  | b :: rest =>
    if b < 128 then validUtf8 rest
    else if b < 194 then false
    else if b < 224 then
      match rest with
      | b1 :: rest₂ => utf8Cont b1 && validUtf8 rest₂
      | [] => false
    else if b < 240 then
      match rest with
      | b1 :: b2 :: rest₂ =>
        (if b = 224 then 160 ≤ b1 && b1 < 192
         else if b = 237 then 128 ≤ b1 && b1 < 160
         else utf8Cont b1) && (utf8Cont b2 && validUtf8 rest₂)
      | _ => false
    else if b < 245 then
      match rest with
      | b1 :: b2 :: b3 :: rest₂ =>
        (if b = 240 then 144 ≤ b1 && b1 < 192
         else if b = 244 then 128 ≤ b1 && b1 < 144
         else utf8Cont b1) && (utf8Cont b2 && (utf8Cont b3 && validUtf8 rest₂))
      | _ => false
    else false

/-- `String` encode (`data/string.rs` lines 13-22): a 2-byte length equal to
byte-count + 1 (the `usize → u16` `as` cast truncates mod 2^16), then the UTF-8
bytes, then one zero terminator.  A Rust `String` is modelled as its UTF-8 bytes. -/
def encodeString (s : List Nat) : List Nat :=
  encodeU16 ((s.length + 1) % 65536) ++ (s ++ [0])

/-- `RawString` encode (`data/string.rs` lines 38-46): bytes plus one zero
terminator, no length prefix. -/
def encodeRawString (s : List Nat) : List Nat := s ++ [0]

/-- `String` decode (`data/string.rs` lines 25-32): read the 2-byte length,
consume that many bytes, drop the final byte, validate UTF-8. -/
def readString (s : List Nat) : Except OpenRGBErr (List Nat × List Nat) := do
  let (n, s) ← readU16 s
  let (buf, s) ← readExact n s
  if validUtf8 buf.dropLast then .ok (buf.dropLast, s) else .error .invalidUtf8

/-- Decode `n` consecutive elements with `rd` (the loop in `Vec::read`). -/
def readN (rd : List Nat → RdResult α) : Nat → List Nat → Except OpenRGBErr (List α × List Nat)
  | 0, s => .ok ([], s)
  | n + 1, s => do
    let (x, s) ← rd s
    let (xs, s) ← readN rd n s
    .ok (x :: xs, s)

/-- `Vec<T>` decode (`data/vec.rs` lines 26-35): a 2-byte count then exactly
that many elements. -/
def readVec (rd : List Nat → RdResult α) (s : List Nat) : Except OpenRGBErr (List α × List Nat) := do
  let (n, s) ← readU16 s
  readN rd n s

/-- `Vec<T>` encode (`data/vec.rs` lines 11-23): `u16::try_from(len)` (failure
is a protocol error, not a truncation), then each element in order. -/
def encodeVec (enc : α → List Nat) (xs : List α) : Except OpenRGBErr (List Nat) :=
  if xs.length < 65536 then .ok (encodeU16 xs.length ++ (xs.map enc).flatten)
  else .error .vecTooLarge

/-- Pair decode (`data/tuple.rs` lines 21-28): both components in declared order. -/
def readPair (rdA : List Nat → RdResult α) (rdB : List Nat → RdResult β)
    (s : List Nat) : Except OpenRGBErr ((α × β) × List Nat) := do
  let (a, s) ← rdA s
  let (b, s) ← rdB s
  .ok ((a, b), s)

/-- Pair encode (`data/tuple.rs` lines 8-18). -/
def encodePair (encA : α → List Nat) (encB : β → List Nat) : α × β → List Nat :=
  fun x => encA x.1 ++ encB x.2

/-- Triple decode (`data/tuple.rs` lines 45-53). -/
def readTriple (rdA : List Nat → RdResult α) (rdB : List Nat → RdResult β)
    (rdC : List Nat → RdResult γ) (s : List Nat) :
    Except OpenRGBErr ((α × β × γ) × List Nat) := do
  let (a, s) ← rdA s
  let (b, s) ← rdB s
  let (c, s) ← rdC s
  .ok ((a, b, c), s)

/-- Triple encode (`data/tuple.rs` lines 31-42). -/
def encodeTriple (encA : α → List Nat) (encB : β → List Nat) (encC : γ → List Nat) :
    α × β × γ → List Nat :=
  fun x => encA x.1 ++ encB x.2.1 ++ encC x.2.2

/-- Quadruple decode (`data/tuple.rs` lines 71-80). -/
def readQuad (rdA : List Nat → RdResult α) (rdB : List Nat → RdResult β)
    (rdC : List Nat → RdResult γ) (rdD : List Nat → RdResult δ)
    (s : List Nat) : Except OpenRGBErr ((α × β × γ × δ) × List Nat) := do
  let (a, s) ← rdA s
  let (b, s) ← rdB s
  let (c, s) ← rdC s
  let (d, s) ← rdD s
  .ok ((a, b, c, d), s)

/-- Quadruple encode (`data/tuple.rs` lines 56-68). -/
def encodeQuad (encA : α → List Nat) (encB : β → List Nat) (encC : γ → List Nat)
    (encD : δ → List Nat) : α × β × γ × δ → List Nat :=
  fun x => encA x.1 ++ encB x.2.1 ++ encC x.2.2.1 ++ encD x.2.2.2

/-- `Color` decode (`data/color.rs` lines 17-23): r, g, b, then one discarded
padding byte. -/
def readColor (s : List Nat) : Except OpenRGBErr (Color × List Nat) := do
  let (r, s) ← readU8 s
  let (g, s) ← readU8 s
  let (b, s) ← readU8 s
  let (_padding, s) ← readU8 s
  .ok ({ r := r, g := g, b := b }, s)

/-- `Color` encode (`data/color.rs` lines 32-38): r, g, b, then a zero padding byte. -/
def encodeColor (c : Color) : List Nat := [c.r, c.g, c.b, 0]

/-- `FlagSet<ModeFlag>` decode (`data/mode_flag.rs` lines 63-68): read a `u32`,
reject any value with bits outside the defined vocabulary. -/
def readFlagSet (s : List Nat) : Except OpenRGBErr (Nat × List Nat) := do
  let (value, s) ← readU32 s
  if value &&& modeFlagFull == value then .ok (value, s)
  else .error (.invalidFlagSet value)

/-- `FlagSet<ModeFlag>` encode (`data/mode_flag.rs` lines 52-60): its bits as a `u32`. -/
def encodeFlagSet (set : Nat) : List Nat := encodeU32 set

/-- `Direction` decode (`data/direction.rs` lines 52-58): unknown ordinals are
a protocol error. -/
def readDirection (s : List Nat) : Except OpenRGBErr (Direction × List Nat) := do
  let (id, s) ← readU32 s
  match Direction.ofNat? id with
  | some d => .ok (d, s)
  | none => .error (.unknownDirection id)

def encodeDirection (d : Direction) : List Nat := encodeU32 d.toNat

/-- `ColorMode` decode (`data/color_mode.rs` lines 48-54): unknown ordinals are
a protocol error. -/
def readColorMode (s : List Nat) : Except OpenRGBErr (ColorMode × List Nat) := do
  let (id, s) ← readU32 s
  match ColorMode.ofNat? id with
  | some c => .ok (c, s)
  | none => .error (.unknownColorMode id)

def encodeColorMode (c : ColorMode) : List Nat := encodeU32 c.toNat

/-- `DeviceType` decode (`data/device_type.rs` lines 73-77): unknown ordinals
fall back to `Unknown` instead of failing. -/
def readDeviceType (s : List Nat) : Except OpenRGBErr (DeviceType × List Nat) := do
  let (id, s) ← readU32 s
  .ok (DeviceType.fromU32 id, s)

def encodeDeviceType (d : DeviceType) : List Nat := encodeU32 d.toNat

/-- `ZoneType` decode (`data/zone_type.rs` lines 39-45): unknown ordinals are
a protocol error. -/
def readZoneType (s : List Nat) : Except OpenRGBErr (ZoneType × List Nat) := do
  let (id, s) ← readU32 s
  match ZoneType.ofNat? id with
  | some z => .ok (z, s)
  | none => .error (.unknownZoneType id)

def encodeZoneType (z : ZoneType) : List Nat := encodeU32 z.toNat

/-- `PacketId` decode (`data/packet.rs` lines 76-82): unknown ordinals are
a protocol error. -/
def readPacketId (s : List Nat) : Except OpenRGBErr (PacketId × List Nat) := do
  let (id, s) ← readU32 s
  match PacketId.ofNat? id with
  | some p => .ok (p, s)
  | none => .error (.unknownPacketId id)

def encodePacketId (p : PacketId) : List Nat := encodeU32 p.toNat

/-- `Mode` (`data/mode.rs` lines 13-55): flag- and version-conditional optional
fields.  The name is the UTF-8 bytes of the Rust `String`; the flag set is its
`u32` bit value. -/
structure Mode where
  name : List Nat
  value : Int
  flags : Nat
  speed_min : Option Nat
  speed_max : Option Nat
  speed : Option Nat
  brightness_min : Option Nat
  brightness_max : Option Nat
  brightness : Option Nat
  color_mode : Option ColorMode
  colors : List Color
  colors_min : Option Nat
  colors_max : Option Nat
  direction : Option Direction
deriving DecidableEq

/-- The raw wire fields of a `Mode` as read by `Mode::read` before
reinterpretation (`data/mode.rs` lines 60-73).  Brightness slots exist on the
wire only when `protocol >= 3`. -/
structure ModeRaw where
  name : List Nat
  value : Int
  flags : Nat
  speed_min : Nat
  speed_max : Nat
  brightness_min : Option Nat
  brightness_max : Option Nat
  colors_min : Nat
  colors_max : Nat
  speed : Nat
  brightness : Option Nat
  direction : Nat
  color_mode : ColorMode
  colors : List Color
deriving DecidableEq

/-- The brightness-slot reads in `Mode::read`:
`if protocol >= 3 { Some(stream.read_value(protocol).await?) } else { None }`. -/
def readBrightnessSlot (protocol : Nat) (s : List Nat) :
    Except OpenRGBErr (Option Nat × List Nat) :=
  if 3 ≤ protocol then do
    let (v, s) ← readU32 s
    .ok (some v, s)
  else .ok (none, s)

/-- The raw reads of `Mode::read` (`data/mode.rs` lines 60-73), in wire order. -/
def readModeRaw (protocol : Nat) (s : List Nat) :
    Except OpenRGBErr (ModeRaw × List Nat) := do
  let (name, s) ← readString s
  let (value, s) ← readI32 s
  let (flags, s) ← readFlagSet s
  let (speed_min, s) ← readU32 s
  let (speed_max, s) ← readU32 s
  let (brightness_min, s) ← readBrightnessSlot protocol s
  let (brightness_max, s) ← readBrightnessSlot protocol s
  let (colors_min, s) ← readU32 s
  let (colors_max, s) ← readU32 s
  let (speed, s) ← readU32 s
  let (brightness, s) ← readBrightnessSlot protocol s
  let (direction, s) ← readU32 s
  let (color_mode, s) ← readColorMode s
  let (colors, s) ← readVec readColor s
  .ok ({ name := name, value := value, flags := flags, speed_min := speed_min,
         speed_max := speed_max, brightness_min := brightness_min,
         brightness_max := brightness_max, colors_min := colors_min,
         colors_max := colors_max, speed := speed, brightness := brightness,
         direction := direction, color_mode := color_mode, colors := colors }, s)

/-- The reinterpretation step of `Mode::read` (`data/mode.rs` lines 75-90):
raw wire fields become optional fields driven by the flag set and the color
list; an unknown direction ordinal is a protocol error, but only when the
`HasDirection` union flag is contained. -/
def mkMode (raw : ModeRaw) : Except OpenRGBErr Mode := do
  let dir ←
    if flagContains raw.flags .HasDirection then
      match Direction.ofNat? raw.direction with
      | some d => Except.ok (some d)
      | none => Except.error (.unknownDirection raw.direction)
    else Except.ok none
  .ok { name := raw.name, value := raw.value, flags := raw.flags,
        speed_min := if flagContains raw.flags .HasSpeed then some raw.speed_min else none,
        speed_max := if flagContains raw.flags .HasSpeed then some raw.speed_max else none,
        speed := if flagContains raw.flags .HasSpeed then some raw.speed else none,
        brightness_min := if flagContains raw.flags .HasBrightness then raw.brightness_min else none,
        brightness_max := if flagContains raw.flags .HasBrightness then raw.brightness_max else none,
        brightness := if flagContains raw.flags .HasBrightness then raw.brightness else none,
        color_mode := some raw.color_mode,
        colors := raw.colors,
        colors_min := if raw.colors.isEmpty then none else some raw.colors_min,
        colors_max := if raw.colors.isEmpty then none else some raw.colors_max,
        direction := dir }

/-- `Mode::read` (`data/mode.rs` lines 59-91): raw reads then reinterpretation. -/
def readMode (protocol : Nat) (s : List Nat) : Except OpenRGBErr (Mode × List Nat) := do
  let (raw, s) ← readModeRaw protocol s
  match mkMode raw with
  | .ok m => .ok (m, s)
  | .error e => .error e

/-- `Mode::write` (`data/mode.rs` lines 119-139): every optional field is
written as its value or the type's default (`0`, `Direction::Left`,
`ColorMode::None`), with brightness slots only when `protocol >= 3`; the color
list is the only fallible write. -/
def encodeMode (protocol : Nat) (m : Mode) : Except OpenRGBErr (List Nat) := do
  let colorBytes ← encodeVec encodeColor m.colors
  .ok (encodeString m.name ++
       encodeI32 m.value ++
       encodeFlagSet m.flags ++
       encodeU32 (m.speed_min.getD 0) ++
       encodeU32 (m.speed_max.getD 0) ++
       (if 3 ≤ protocol then encodeU32 (m.brightness_min.getD 0) ++ encodeU32 (m.brightness_max.getD 0) else []) ++
       encodeU32 (m.colors_min.getD 0) ++
       encodeU32 (m.colors_max.getD 0) ++
       encodeU32 (m.speed.getD 0) ++
       (if 3 ≤ protocol then encodeU32 (m.brightness.getD 0) else []) ++
       encodeDirection (m.direction.getD .left) ++
       encodeColorMode (m.color_mode.getD .noColor) ++
       colorBytes)

/-- A byte stream laying out the raw wire fields of one `Mode`, in the order
`Mode::read` consumes them (brightness slots present only when `protocol >= 3`). -/
def modeWire (protocol : Nat) (name : List Nat) (value : Int) (flags sm sM bm bM cmin cmax sp br dir : Nat)
    (cmode : ColorMode) (colors : List Color) : List Nat :=
  encodeString name ++
  encodeI32 value ++
  encodeFlagSet flags ++
  encodeU32 sm ++
  encodeU32 sM ++
  (if 3 ≤ protocol then encodeU32 bm ++ encodeU32 bM else []) ++
  encodeU32 cmin ++
  encodeU32 cmax ++
  encodeU32 sp ++
  (if 3 ≤ protocol then encodeU32 br else []) ++
  encodeU32 dir ++
  encodeColorMode cmode ++
  encodeU16 colors.length ++ (colors.map encodeColor).flatten

/-- `Array2D::from_row_major`: row `i` is cells `i*w .. i*w + w` (`data/zone.rs` line 51). -/
def rowMajor (data : List Nat) (h w : Nat) : List (List Nat) :=
  (List.range h).map (fun i => ((data.drop (i * w)).take w))

/-- `Zone` (`data/zone.rs` lines 12-30); the matrix is rows of `u32` cells. -/
structure Zone where
  name : List Nat
  ztype : ZoneType
  leds_min : Nat
  leds_max : Nat
  leds_count : Nat
  matrix : Option (List (List Nat))
deriving DecidableEq

/-- `Zone::read` (`data/zone.rs` lines 34-62): name, type, three LED counts,
a 2-byte matrix-section length (zero means no matrix), then height, width and
`height*width` cells reconstructed in row-major order. -/
def readZone (_protocol : Nat) (s : List Nat) : Except OpenRGBErr (Zone × List Nat) := do
  let (name, s) ← readString s
  let (ztype, s) ← readZoneType s
  let (leds_min, s) ← readU32 s
  let (leds_max, s) ← readU32 s
  let (leds_count, s) ← readU32 s
  let (matrix_len, s) ← readU16 s
  if matrix_len = 0 then
    .ok ({ name := name, ztype := ztype, leds_min := leds_min, leds_max := leds_max,
           leds_count := leds_count, matrix := none }, s)
  else do
    let (matrix_height, s) ← readU32 s
    let (matrix_width, s) ← readU32 s
    let (matrix_data, s) ← readN readU32 (matrix_height * matrix_width) s
    .ok ({ name := name, ztype := ztype, leds_min := leds_min, leds_max := leds_max,
           leds_count := leds_count,
           matrix := some (rowMajor matrix_data matrix_height matrix_width) }, s)

/-- The packet magic `b"ORGB"` (`protocol.rs` line 11). -/
def MAGIC : List Nat := [79, 82, 71, 66]

/-- The magic-comparison loop of `read_header` (`protocol.rs` lines 22-26):
bytes are read and compared one at a time; on a mismatch the error is raised
immediately, and its argument is the loop variable `c` — the EXPECTED byte —
while the byte actually read is discarded. -/
def readMagicLoop : List Nat → List Nat → Except OpenRGBErr (Unit × List Nat)
  | [], s => .ok ((), s)
  | c :: cs, s => do
    let (b, s) ← readU8 s
    if b ≠ c then .error (.magicMismatch c) else readMagicLoop cs s

/-- `read_header` (`protocol.rs` lines 19-42): magic loop, device id compared
to the expected value, packet id decoded and compared, then the payload length
(the `u32 → usize` conversion never fails on a 32-bit-or-wider platform). -/
def readHeader (_protocol : Nat) (expectedDeviceId : Nat) (expectedPacketId : PacketId)
    (s : List Nat) : Except OpenRGBErr (Nat × List Nat) := do
  let (_, s) ← readMagicLoop MAGIC s
  let (deviceId, s) ← readU32 s
  if deviceId ≠ expectedDeviceId then
    .error (.deviceIdMismatch expectedDeviceId deviceId)
  else do
    let (packetId, s) ← readPacketId s
    if packetId ≠ expectedPacketId then
      .error (.packetIdMismatch expectedPacketId packetId)
    else do
      let (len, s) ← readU32 s
      .ok (len, s)

/-- `read_packet` for a `u32` payload (`protocol.rs` lines 44-48): header then
payload; the declared length is not cross-checked against bytes consumed. -/
def readPacketU32 (protocol : Nat) (expectedDeviceId : Nat) (expectedPacketId : PacketId)
    (s : List Nat) : Except OpenRGBErr (Nat × List Nat) := do
  let (_len, s) ← readHeader protocol expectedDeviceId expectedPacketId s
  readU32 s

/-- `write_header` (`protocol.rs` lines 57-64): magic, device id, packet id,
payload length (written through the fallible `usize` codec). -/
def writeHeader (deviceId : Nat) (packetId : PacketId) (dataLen : Nat) :
    Except OpenRGBErr (List Nat) := do
  let lenBytes ← encodeUsize dataLen
  .ok (MAGIC ++ encodeU32 deviceId ++ encodePacketId packetId ++ lenBytes)

/-- `write_packet` (`protocol.rs` lines 66-84): header (with the payload's
reported size) then payload.  In debug builds the source assembles the whole
packet in a buffer before sending, so a failure writes nothing. -/
def writePacket (deviceId : Nat) (packetId : PacketId) (payload : List Nat) :
    Except OpenRGBErr (List Nat) := do
  let hdr ← writeHeader deviceId packetId payload.length
  .ok (hdr ++ payload)

/-- `DEFAULT_PROTOCOL` (`client.rs` line 17): the client's maximum supported
protocol version. -/
def DEFAULT_PROTOCOL : Nat := 3

/-- The `OpenRGB<S>` client state: the negotiated protocol version
(`client.rs` lines 23-26; the stream itself is the ambient byte list). -/
structure Client where
  protocol : Nat
deriving DecidableEq

/-- `OpenRGB::new` (`client.rs` lines 83-94): send a protocol-version request
carrying `DEFAULT_PROTOCOL` (encoded at `DEFAULT_PROTOCOL`), read the server's
reported version from `response`, negotiate `DEFAULT_PROTOCOL.min(server)`.
Returns the client, the request bytes written, and the unconsumed response. -/
def openRGBNew (response : List Nat) :
    Except OpenRGBErr (Client × List Nat × List Nat) := do
  let request ← writePacket 0 .RequestProtocolVersion (encodeU32 DEFAULT_PROTOCOL)
  let (serverVersion, rest) ← readPacketU32 DEFAULT_PROTOCOL 0 .RequestProtocolVersion response
  .ok ({ protocol := min DEFAULT_PROTOCOL serverVersion }, request, rest)

/-- `get_protocol_version` (`client.rs` lines 101-103). -/
def getProtocolVersion (c : Client) : Nat := c.protocol

/-- `check_protocol_version_profile_control` (`client.rs` lines 281-290). -/
def checkProtocolVersionProfileControl (c : Client) : Except OpenRGBErr Unit :=
  if c.protocol < 2 then
    .error (.unsupportedOperation profileControlName c.protocol 2)
  else .ok ()

/-- `check_protocol_version_saving_modes` (`client.rs` lines 292-301). -/
def checkProtocolVersionSavingModes (c : Client) : Except OpenRGBErr Unit :=
  if c.protocol < 3 then
    .error (.unsupportedOperation savingModesName c.protocol 3)
  else .ok ()

/-- An operation's observable effect on the connection: the bytes written so
far (`log`) extended by whatever the operation sends, plus its error if any.
A version-gate failure happens before any write. -/
def runGatedWrite (gate : Except OpenRGBErr Unit) (packet : Except OpenRGBErr (List Nat))
    (log : List Nat) : List Nat × Option OpenRGBErr :=
  match gate with
  | .error e => (log, some e)
  | .ok () =>
    match packet with
    | .ok bs => (log ++ bs, none)
    | .error e => (log, some e)

/-- `get_profiles` (`client.rs` lines 192-203): gate on profile control, then
request `RequestProfileList` with a unit payload. -/
def getProfilesOp (c : Client) (log : List Nat) : List Nat × Option OpenRGBErr :=
  runGatedWrite (checkProtocolVersionProfileControl c)
    (writePacket 0 .RequestProfileList encodeUnit) log

/-- `load_profile` (`client.rs` lines 208-216): gate, then write the profile
name as a length-prefixed string. -/
def loadProfileOp (c : Client) (name : List Nat) (log : List Nat) :
    List Nat × Option OpenRGBErr :=
  runGatedWrite (checkProtocolVersionProfileControl c)
    (writePacket 0 .RequestLoadProfile (encodeString name)) log

/-- `save_profile` (`client.rs` lines 221-229). -/
def saveProfileOp (c : Client) (name : List Nat) (log : List Nat) :
    List Nat × Option OpenRGBErr :=
  runGatedWrite (checkProtocolVersionProfileControl c)
    (writePacket 0 .RequestSaveProfile (encodeString name)) log

/-- `delete_profile` (`client.rs` lines 234-242). -/
def deleteProfileOp (c : Client) (name : List Nat) (log : List Nat) :
    List Nat × Option OpenRGBErr :=
  runGatedWrite (checkProtocolVersionProfileControl c)
    (writePacket 0 .RequestDeleteProfile (encodeString name)) log

/-- `save_mode` (`client.rs` lines 271-279): gate on saving modes, then write
the mode at the negotiated version. -/
def saveModeOp (c : Client) (controllerId : Nat) (m : Mode) (log : List Nat) :
    List Nat × Option OpenRGBErr :=
  runGatedWrite (checkProtocolVersionSavingModes c)
    (do
      let body ← encodeMode c.protocol m
      writePacket controllerId .RGBControllerSaveMode body) log

/-- `set_name` (`client.rs` lines 108-115): ungated raw-string write at the
client's negotiated version. -/
def setNameOp (_c : Client) (name : List Nat) (log : List Nat) :
    List Nat × Option OpenRGBErr :=
  runGatedWrite (.ok ()) (writePacket 0 .SetClientName (encodeRawString name)) log

/-- `rd` decodes back, with any following bytes untouched, exactly what `enc`
produces for `x`: the element-level round-trip contract. -/
def RoundTrips (rd : List Nat → RdResult α) (enc : α → List Nat) (x : α) : Prop :=
  ∀ rest, rd (enc x ++ rest) = .ok (x, rest)

/-- The values a well-formed in-memory `Mode` may take, as enforced by the
Rust types and the documented field semantics (`data/mode.rs` lines 13-55):
machine-integer ranges, a valid flag set, name a valid UTF-8 `String` whose
length survives the `u16` prefix, and each optional field populated exactly
under the condition its doc comment states. -/
def CanonicalMode (protocol : Nat) (m : Mode) : Prop :=
  validUtf8 m.name = true ∧ m.name.length + 1 < 65536 ∧
  -2147483648 ≤ m.value ∧ m.value < 2147483648 ∧
  m.flags &&& modeFlagFull = m.flags ∧
  (∀ x ∈ m.speed_min, x < 4294967296) ∧ (∀ x ∈ m.speed_max, x < 4294967296) ∧
  (∀ x ∈ m.speed, x < 4294967296) ∧
  (∀ x ∈ m.brightness_min, x < 4294967296) ∧ (∀ x ∈ m.brightness_max, x < 4294967296) ∧
  (∀ x ∈ m.brightness, x < 4294967296) ∧
  (∀ x ∈ m.colors_min, x < 4294967296) ∧ (∀ x ∈ m.colors_max, x < 4294967296) ∧
  (m.speed_min.isSome = flagContains m.flags .HasSpeed) ∧
  (m.speed_max.isSome = flagContains m.flags .HasSpeed) ∧
  (m.speed.isSome = flagContains m.flags .HasSpeed) ∧
  (m.brightness_min.isSome = (flagContains m.flags .HasBrightness && 3 ≤ protocol)) ∧
  (m.brightness_max.isSome = (flagContains m.flags .HasBrightness && 3 ≤ protocol)) ∧
  (m.brightness.isSome = (flagContains m.flags .HasBrightness && 3 ≤ protocol)) ∧
  (m.colors_min.isSome = !m.colors.isEmpty) ∧
  (m.colors_max.isSome = !m.colors.isEmpty) ∧
  (m.direction.isSome = flagContains m.flags .HasDirection) ∧
  m.color_mode.isSome = true ∧
  m.colors.length < 65536

/-- Well-formedness of raw mode wire fields: machine-integer ranges, a valid
flag set, and a name that a Rust `String` could hold. -/
def WireFieldsWF (name : List Nat) (value : Int)
    (flags sm sM bm bM cmin cmax sp br dir : Nat) (colors : List Color) : Prop :=
  validUtf8 name = true ∧ name.length + 1 < 65536 ∧
  -2147483648 ≤ value ∧ value < 2147483648 ∧
  flags &&& modeFlagFull = flags ∧
  sm < 4294967296 ∧ sM < 4294967296 ∧ bm < 4294967296 ∧ bM < 4294967296 ∧
  cmin < 4294967296 ∧ cmax < 4294967296 ∧ sp < 4294967296 ∧ br < 4294967296 ∧
  dir < 4294967296 ∧ colors.length < 65536

/-- A concrete `Mode` whose `color_mode` is `None` — a value the Rust `Mode`
struct admits (all fields are public) but that `Mode::read` can never produce. -/
def modeColorModeNone : Mode :=
  { name := [], value := 0, flags := 0, speed_min := none, speed_max := none,
    speed := none, brightness_min := none, brightness_max := none,
    brightness := none, color_mode := none, colors := [], colors_min := none,
    colors_max := none, direction := none }

/-- A concrete canonical `Mode` (name "test", speed and direction flags set). -/
def modeCanonicalW : Mode :=
  { name := [116, 101, 115, 116], value := 46, flags := 15,
    speed_min := some 10, speed_max := some 1000, speed := some 51,
    brightness_min := none, brightness_max := none, brightness := none,
    color_mode := some .perLED, colors := [{ r := 37, g := 54, b := 126 }],
    colors_min := some 0, colors_max := some 256, direction := some .horizontal }

@[simp]
theorem exceptOkBind (a : α) (f : α → Except OpenRGBErr β) :
    (Except.ok a >>= f) = f a := rfl

@[simp]
theorem exceptErrorBind (e : OpenRGBErr) (f : α → Except OpenRGBErr β) :
    ((Except.error e : Except OpenRGBErr α) >>= f) = .error e := rfl

@[simp]
theorem readU8_cons (b : Nat) (rest : List Nat) : readU8 (b :: rest) = .ok (b, rest) := rfl

@[simp]
theorem readU16_enc (n : Nat) (rest : List Nat) (h : n < 65536) :
    readU16 (encodeU16 n ++ rest) = .ok (n, rest) := by
  simp only [readU16, encodeU16, List.cons_append, List.nil_append, readU8_cons, exceptOkBind]
  have : n % 256 + 256 * (n / 256 % 256) = n := by omega
  simp [this]

@[simp]
theorem readU32_enc (n : Nat) (rest : List Nat) (h : n < 4294967296) :
    readU32 (encodeU32 n ++ rest) = .ok (n, rest) := by
  simp only [readU32, encodeU32, List.cons_append, List.nil_append, readU8_cons, exceptOkBind]
  have : n % 256 + 256 * (n / 256 % 256 + 256 * (n / 65536 % 256 + 256 * (n / 16777216 % 256))) = n := by
    omega
  simp [this]

@[simp]
theorem readI32_enc (v : Int) (rest : List Nat) (h0 : -2147483648 ≤ v) (h1 : v < 2147483648) :
    readI32 (encodeI32 v ++ rest) = .ok (v, rest) := by
  have hm0 : 0 ≤ v % 4294967296 := Int.emod_nonneg v (by norm_num)
  have hm1 : v % 4294967296 < 4294967296 := Int.emod_lt_of_pos v (by norm_num)
  have hn : (v % 4294967296).toNat < 4294967296 := by omega
  simp only [readI32, encodeI32, readU32_enc _ _ hn, exceptOkBind]
  have hcast : ((v % 4294967296).toNat : Int) = v % 4294967296 := Int.toNat_of_nonneg hm0
  have hcase : v % 4294967296 = v ∨ v % 4294967296 = v + 4294967296 := by omega
  by_cases hlt : (v % 4294967296).toNat < 2147483648
  · rw [if_pos hlt]
    have hv : ((v % 4294967296).toNat : Int) = v := by omega
    rw [hv]
  · rw [if_neg hlt]
    have hv : ((v % 4294967296).toNat : Int) - 4294967296 = v := by omega
    rw [hv]

@[simp]
theorem readUsize_enc (n : Nat) (bs rest : List Nat) (h : encodeUsize n = .ok bs) :
    readUsize (bs ++ rest) = .ok (n, rest) := by
  unfold encodeUsize at h
  split at h
  · cases h
    exact readU32_enc n rest (by omega)
  · cases h

theorem readExact_exact (bs rest : List Nat) :
    readExact bs.length (bs ++ rest) = .ok (bs, rest) := by
  unfold readExact
  rw [if_pos (by simp)]
  simp

@[simp]
theorem readString_enc (s rest : List Nat) (hv : validUtf8 s = true)
    (hl : s.length + 1 < 65536) :
    readString (encodeString s ++ rest) = .ok (s, rest) := by
  have hmod : (s.length + 1) % 65536 = s.length + 1 := Nat.mod_eq_of_lt hl
  have hlen : (s ++ [0]).length = s.length + 1 := by simp
  unfold readString encodeString
  rw [hmod, List.append_assoc, readU16_enc _ _ hl, exceptOkBind]
  have : readExact (s.length + 1) ((s ++ [0]) ++ rest) = .ok (s ++ [0], rest) := by
    rw [← hlen]; exact readExact_exact (s ++ [0]) rest
  simp only [List.append_assoc] at this ⊢
  rw [this, exceptOkBind]
  simp [List.dropLast_concat, hv]

theorem readN_enc (rd : List Nat → RdResult α) (enc : α → List Nat) (xs : List α)
    (h : ∀ x ∈ xs, RoundTrips rd enc x) (rest : List Nat) :
    readN rd xs.length ((xs.map enc).flatten ++ rest) = .ok (xs, rest) := by
  induction xs generalizing rest with
  | nil => simp [readN]
  | cons x xs ih =>
    have hx : RoundTrips rd enc x := h x (by simp)
    have hxs : ∀ y ∈ xs, RoundTrips rd enc y := fun y hy => h y (by simp [hy])
    simp only [List.map_cons, List.flatten_cons, List.length_cons, List.append_assoc, readN]
    rw [hx ((xs.map enc).flatten ++ rest), exceptOkBind, ih hxs rest, exceptOkBind]

theorem encodeVec_ok (enc : α → List Nat) (xs : List α) (h : xs.length < 65536) :
    encodeVec enc xs = .ok (encodeU16 xs.length ++ (xs.map enc).flatten) := by
  unfold encodeVec
  rw [if_pos h]

theorem readVec_enc (rd : List Nat → RdResult α) (enc : α → List Nat) (xs : List α)
    (hlen : xs.length < 65536) (h : ∀ x ∈ xs, RoundTrips rd enc x) (rest : List Nat) :
    readVec rd (encodeU16 xs.length ++ (xs.map enc).flatten ++ rest) = .ok (xs, rest) := by
  unfold readVec
  rw [List.append_assoc, readU16_enc _ _ hlen, exceptOkBind]
  exact readN_enc rd enc xs h rest

@[simp]
theorem readColor_enc (c : Color) (rest : List Nat) :
    readColor (encodeColor c ++ rest) = .ok (c, rest) := by
  cases c
  simp [readColor, encodeColor]

theorem roundTrips_color (c : Color) : RoundTrips readColor encodeColor c :=
  fun rest => readColor_enc c rest

@[simp]
theorem readFlagSet_enc (n : Nat) (rest : List Nat) (hn : n < 4294967296)
    (hv : n &&& modeFlagFull = n) :
    readFlagSet (encodeU32 n ++ rest) = .ok (n, rest) := by
  simp [readFlagSet, readU32_enc _ _ hn, hv]

theorem readFlagSet_invalid (n : Nat) (rest : List Nat) (hn : n < 4294967296)
    (hv : n &&& modeFlagFull ≠ n) :
    readFlagSet (encodeU32 n ++ rest) = .error (.invalidFlagSet n) := by
  simp [readFlagSet, readU32_enc _ _ hn, hv]

theorem directionToNat_lt (d : Direction) : d.toNat < 4294967296 := by cases d <;> decide

theorem directionOfNat_toNat (d : Direction) : Direction.ofNat? d.toNat = some d := by
  cases d <;> rfl

@[simp]
theorem readDirection_enc (d : Direction) (rest : List Nat) :
    readDirection (encodeDirection d ++ rest) = .ok (d, rest) := by
  simp [readDirection, encodeDirection, readU32_enc _ _ (directionToNat_lt d),
    directionOfNat_toNat]

theorem colorModeToNat_lt (c : ColorMode) : c.toNat < 4294967296 := by cases c <;> decide

theorem colorModeOfNat_toNat (c : ColorMode) : ColorMode.ofNat? c.toNat = some c := by
  cases c <;> rfl

@[simp]
theorem readColorMode_enc (c : ColorMode) (rest : List Nat) :
    readColorMode (encodeColorMode c ++ rest) = .ok (c, rest) := by
  simp [readColorMode, encodeColorMode, readU32_enc _ _ (colorModeToNat_lt c),
    colorModeOfNat_toNat]

theorem deviceTypeToNat_lt (d : DeviceType) : d.toNat < 4294967296 := by cases d <;> decide

theorem deviceTypeFromU32_toNat (d : DeviceType) : DeviceType.fromU32 d.toNat = d := by
  cases d <;> rfl

@[simp]
theorem readDeviceType_enc (d : DeviceType) (rest : List Nat) :
    readDeviceType (encodeDeviceType d ++ rest) = .ok (d, rest) := by
  simp [readDeviceType, encodeDeviceType, readU32_enc _ _ (deviceTypeToNat_lt d),
    deviceTypeFromU32_toNat]

theorem zoneTypeToNat_lt (z : ZoneType) : z.toNat < 4294967296 := by cases z <;> decide

theorem zoneTypeOfNat_toNat (z : ZoneType) : ZoneType.ofNat? z.toNat = some z := by
  cases z <;> rfl

@[simp]
theorem readZoneType_enc (z : ZoneType) (rest : List Nat) :
    readZoneType (encodeZoneType z ++ rest) = .ok (z, rest) := by
  simp [readZoneType, encodeZoneType, readU32_enc _ _ (zoneTypeToNat_lt z),
    zoneTypeOfNat_toNat]

theorem packetIdToNat_lt (p : PacketId) : p.toNat < 4294967296 := by cases p <;> decide

theorem packetIdOfNat_toNat (p : PacketId) : PacketId.ofNat? p.toNat = some p := by
  cases p <;> rfl

@[simp]
theorem readPacketId_enc (p : PacketId) (rest : List Nat) :
    readPacketId (encodePacketId p ++ rest) = .ok (p, rest) := by
  simp [readPacketId, encodePacketId, readU32_enc _ _ (packetIdToNat_lt p),
    packetIdOfNat_toNat]

theorem readBrightnessSlot_ge3 (p n : Nat) (rest : List Nat) (hp : 3 ≤ p)
    (hn : n < 4294967296) :
    readBrightnessSlot p (encodeU32 n ++ rest) = .ok (some n, rest) := by
  simp [readBrightnessSlot, hp, readU32_enc _ _ hn]

theorem readBrightnessSlot_lt3 (p : Nat) (s : List Nat) (hp : ¬ 3 ≤ p) :
    readBrightnessSlot p s = .ok (none, s) := by
  simp [readBrightnessSlot, hp]

theorem readVecColor_wire (colors : List Color) (hcolors : colors.length < 65536)
    (rest : List Nat) :
    readVec readColor (encodeU16 colors.length ++ ((colors.map encodeColor).flatten ++ rest)) =
      .ok (colors, rest) := by
  have h := readVec_enc readColor encodeColor colors hcolors (fun x _ => roundTrips_color x) rest
  simpa [List.append_assoc] using h

theorem flags_lt_of_valid (flags : Nat) (hflags : flags &&& modeFlagFull = flags) :
    flags < 4294967296 := by
  have h := Nat.and_le_right (n := flags) (m := modeFlagFull)
  unfold modeFlagFull at h hflags
  omega

theorem readModeRaw_wire (p : Nat) (name : List Nat) (value : Int)
    (flags sm sM bm bM cmin cmax sp br dir : Nat) (cmode : ColorMode)
    (colors : List Color) (rest : List Nat)
    (hname : validUtf8 name = true) (hnlen : name.length + 1 < 65536)
    (hv0 : -2147483648 ≤ value) (hv1 : value < 2147483648)
    (hflags : flags &&& modeFlagFull = flags)
    (hsm : sm < 4294967296) (hsM : sM < 4294967296)
    (hbm : bm < 4294967296) (hbM : bM < 4294967296)
    (hcmin : cmin < 4294967296) (hcmax : cmax < 4294967296)
    (hsp : sp < 4294967296) (hbr : br < 4294967296)
    (hdir : dir < 4294967296) (hcolors : colors.length < 65536) :
    readModeRaw p (modeWire p name value flags sm sM bm bM cmin cmax sp br dir cmode colors ++ rest) =
      .ok ({ name := name, value := value, flags := flags, speed_min := sm,
             speed_max := sM,
             brightness_min := if 3 ≤ p then some bm else none,
             brightness_max := if 3 ≤ p then some bM else none,
             colors_min := cmin, colors_max := cmax, speed := sp,
             brightness := if 3 ≤ p then some br else none,
             direction := dir, color_mode := cmode, colors := colors }, rest) := by
  have hflt : flags < 4294967296 := flags_lt_of_valid flags hflags
  by_cases hp : 3 ≤ p
  · simp only [modeWire, if_pos hp, List.append_assoc, readModeRaw]
    simp [readString_enc _ _ hname hnlen, readI32_enc, readFlagSet_enc,
      readBrightnessSlot_ge3, readVecColor_wire, encodeFlagSet,
      hv0, hv1, hflt, hflags, hsm, hsM, hbm, hbM, hcmin, hcmax, hsp, hbr, hdir,
      hcolors, hp]
  · simp only [modeWire, if_neg hp, List.append_assoc, readModeRaw, List.nil_append]
    simp [readString_enc _ _ hname hnlen, readI32_enc, readFlagSet_enc,
      readBrightnessSlot_lt3 _ _ hp, readVecColor_wire, encodeFlagSet,
      hv0, hv1, hflt, hflags, hsm, hsM, hcmin, hcmax, hsp, hdir,
      hcolors, hp]

theorem mkMode_noDir (raw : ModeRaw) (h : flagContains raw.flags .HasDirection = false) :
    mkMode raw =
      .ok { name := raw.name, value := raw.value, flags := raw.flags,
            speed_min := if flagContains raw.flags .HasSpeed then some raw.speed_min else none,
            speed_max := if flagContains raw.flags .HasSpeed then some raw.speed_max else none,
            speed := if flagContains raw.flags .HasSpeed then some raw.speed else none,
            brightness_min := if flagContains raw.flags .HasBrightness then raw.brightness_min else none,
            brightness_max := if flagContains raw.flags .HasBrightness then raw.brightness_max else none,
            brightness := if flagContains raw.flags .HasBrightness then raw.brightness else none,
            color_mode := some raw.color_mode, colors := raw.colors,
            colors_min := if raw.colors.isEmpty then none else some raw.colors_min,
            colors_max := if raw.colors.isEmpty then none else some raw.colors_max,
            direction := none } := by
  simp [mkMode, h]

theorem mkMode_dir (raw : ModeRaw) (d : Direction)
    (h : flagContains raw.flags .HasDirection = true)
    (hd : Direction.ofNat? raw.direction = some d) :
    mkMode raw =
      .ok { name := raw.name, value := raw.value, flags := raw.flags,
            speed_min := if flagContains raw.flags .HasSpeed then some raw.speed_min else none,
            speed_max := if flagContains raw.flags .HasSpeed then some raw.speed_max else none,
            speed := if flagContains raw.flags .HasSpeed then some raw.speed else none,
            brightness_min := if flagContains raw.flags .HasBrightness then raw.brightness_min else none,
            brightness_max := if flagContains raw.flags .HasBrightness then raw.brightness_max else none,
            brightness := if flagContains raw.flags .HasBrightness then raw.brightness else none,
            color_mode := some raw.color_mode, colors := raw.colors,
            colors_min := if raw.colors.isEmpty then none else some raw.colors_min,
            colors_max := if raw.colors.isEmpty then none else some raw.colors_max,
            direction := some d } := by
  simp [mkMode, h, hd]

theorem mkMode_badDir (raw : ModeRaw)
    (h : flagContains raw.flags .HasDirection = true)
    (hd : Direction.ofNat? raw.direction = none) :
    mkMode raw = .error (.unknownDirection raw.direction) := by
  simp [mkMode, h, hd]

theorem readMode_wire_noDir (p : Nat) (name : List Nat) (value : Int)
    (flags sm sM bm bM cmin cmax sp br dir : Nat) (cmode : ColorMode)
    (colors : List Color) (rest : List Nat)
    (hwf : WireFieldsWF name value flags sm sM bm bM cmin cmax sp br dir colors)
    (hnd : flagContains flags .HasDirection = false) :
    readMode p (modeWire p name value flags sm sM bm bM cmin cmax sp br dir cmode colors ++ rest) =
      .ok ({ name := name, value := value, flags := flags,
             speed_min := if flagContains flags .HasSpeed then some sm else none,
             speed_max := if flagContains flags .HasSpeed then some sM else none,
             speed := if flagContains flags .HasSpeed then some sp else none,
             brightness_min := if flagContains flags .HasBrightness then (if 3 ≤ p then some bm else none) else none,
             brightness_max := if flagContains flags .HasBrightness then (if 3 ≤ p then some bM else none) else none,
             brightness := if flagContains flags .HasBrightness then (if 3 ≤ p then some br else none) else none,
             color_mode := some cmode, colors := colors,
             colors_min := if colors.isEmpty then none else some cmin,
             colors_max := if colors.isEmpty then none else some cmax,
             direction := none }, rest) := by
  obtain ⟨h1, h2, h3, h4, h5, h6, h7, h8, h9, h10, h11, h12, h13, h14, h15⟩ := hwf
  unfold readMode
  rw [readModeRaw_wire p name value flags sm sM bm bM cmin cmax sp br dir cmode colors rest
      h1 h2 h3 h4 h5 h6 h7 h8 h9 h10 h11 h12 h13 h14 h15, exceptOkBind]
  simp only []
  rw [mkMode_noDir _ (by simpa using hnd)]

theorem readMode_wire_dir (p : Nat) (name : List Nat) (value : Int)
    (flags sm sM bm bM cmin cmax sp br dir : Nat) (cmode : ColorMode)
    (colors : List Color) (rest : List Nat) (d : Direction)
    (hwf : WireFieldsWF name value flags sm sM bm bM cmin cmax sp br dir colors)
    (hd : flagContains flags .HasDirection = true)
    (hdir : Direction.ofNat? dir = some d) :
    readMode p (modeWire p name value flags sm sM bm bM cmin cmax sp br dir cmode colors ++ rest) =
      .ok ({ name := name, value := value, flags := flags,
             speed_min := if flagContains flags .HasSpeed then some sm else none,
             speed_max := if flagContains flags .HasSpeed then some sM else none,
             speed := if flagContains flags .HasSpeed then some sp else none,
             brightness_min := if flagContains flags .HasBrightness then (if 3 ≤ p then some bm else none) else none,
             brightness_max := if flagContains flags .HasBrightness then (if 3 ≤ p then some bM else none) else none,
             brightness := if flagContains flags .HasBrightness then (if 3 ≤ p then some br else none) else none,
             color_mode := some cmode, colors := colors,
             colors_min := if colors.isEmpty then none else some cmin,
             colors_max := if colors.isEmpty then none else some cmax,
             direction := some d }, rest) := by
  obtain ⟨h1, h2, h3, h4, h5, h6, h7, h8, h9, h10, h11, h12, h13, h14, h15⟩ := hwf
  unfold readMode
  rw [readModeRaw_wire p name value flags sm sM bm bM cmin cmax sp br dir cmode colors rest
      h1 h2 h3 h4 h5 h6 h7 h8 h9 h10 h11 h12 h13 h14 h15, exceptOkBind]
  simp only []
  rw [mkMode_dir _ d (by simpa using hd) (by simpa using hdir)]

theorem readMode_wire_badDir (p : Nat) (name : List Nat) (value : Int)
    (flags sm sM bm bM cmin cmax sp br dir : Nat) (cmode : ColorMode)
    (colors : List Color) (rest : List Nat)
    (hwf : WireFieldsWF name value flags sm sM bm bM cmin cmax sp br dir colors)
    (hd : flagContains flags .HasDirection = true)
    (hdir : Direction.ofNat? dir = none) :
    readMode p (modeWire p name value flags sm sM bm bM cmin cmax sp br dir cmode colors ++ rest) =
      .error (.unknownDirection dir) := by
  obtain ⟨h1, h2, h3, h4, h5, h6, h7, h8, h9, h10, h11, h12, h13, h14, h15⟩ := hwf
  unfold readMode
  rw [readModeRaw_wire p name value flags sm sM bm bM cmin cmax sp br dir cmode colors rest
      h1 h2 h3 h4 h5 h6 h7 h8 h9 h10 h11 h12 h13 h14 h15, exceptOkBind]
  simp only []
  rw [mkMode_badDir _ (by simpa using hd) (by simpa using hdir)]

theorem readN_encU32 (cells : List Nat) (hcv : ∀ c ∈ cells, c < 4294967296) (rest : List Nat) :
    readN readU32 cells.length ((cells.map encodeU32).flatten ++ rest) = .ok (cells, rest) :=
  readN_enc readU32 encodeU32 cells (fun c hc rest => readU32_enc c rest (hcv c hc)) rest

theorem readZone_wire_noMatrix (p : Nat) (name : List Nat) (zt : ZoneType)
    (lmin lmax lcnt : Nat) (rest : List Nat)
    (hname : validUtf8 name = true) (hnlen : name.length + 1 < 65536)
    (hlmin : lmin < 4294967296) (hlmax : lmax < 4294967296) (hlcnt : lcnt < 4294967296) :
    readZone p (encodeString name ++ encodeZoneType zt ++ encodeU32 lmin ++ encodeU32 lmax ++
        encodeU32 lcnt ++ encodeU16 0 ++ rest) =
      .ok ({ name := name, ztype := zt, leds_min := lmin, leds_max := lmax,
             leds_count := lcnt, matrix := none }, rest) := by
  simp only [List.append_assoc, readZone]
  simp [readString_enc _ _ hname hnlen, readU32_enc, hlmin, hlmax, hlcnt,
    readU16_enc 0 rest (by norm_num)]

theorem readZone_wire_matrix (p : Nat) (name : List Nat) (zt : ZoneType)
    (lmin lmax lcnt mlen h w : Nat) (cells : List Nat) (rest : List Nat)
    (hname : validUtf8 name = true) (hnlen : name.length + 1 < 65536)
    (hlmin : lmin < 4294967296) (hlmax : lmax < 4294967296) (hlcnt : lcnt < 4294967296)
    (hmlen : mlen < 65536) (hm0 : mlen ≠ 0)
    (hh : h < 4294967296) (hw : w < 4294967296)
    (hcells : cells.length = h * w) (hcv : ∀ c ∈ cells, c < 4294967296) :
    readZone p (encodeString name ++ encodeZoneType zt ++ encodeU32 lmin ++ encodeU32 lmax ++
        encodeU32 lcnt ++ encodeU16 mlen ++ encodeU32 h ++ encodeU32 w ++
        (cells.map encodeU32).flatten ++ rest) =
      .ok ({ name := name, ztype := zt, leds_min := lmin, leds_max := lmax,
             leds_count := lcnt, matrix := some (rowMajor cells h w) }, rest) := by
  have hrn : readN readU32 cells.length ((cells.map encodeU32).flatten ++ rest) = .ok (cells, rest) :=
    readN_encU32 cells hcv rest
  simp only [List.append_assoc, readZone]
  simp [readString_enc _ _ hname hnlen, readU32_enc, hlmin, hlmax, hlcnt, hh, hw,
    readU16_enc mlen _ hmlen, hm0, hrn, ← hcells]

theorem readMagicLoop_self (cs : List Nat) (s : List Nat) :
    readMagicLoop cs (cs ++ s) = .ok ((), s) := by
  induction cs with
  | nil => simp [readMagicLoop]
  | cons c cs ih => simp [readMagicLoop, ih]

theorem readHeader_ok (p dev : Nat) (pid : PacketId) (len : Nat) (rest : List Nat)
    (hdev : dev < 4294967296) (hlen : len < 4294967296) :
    readHeader p dev pid (MAGIC ++ (encodeU32 dev ++ (encodePacketId pid ++
        (encodeU32 len ++ rest)))) = .ok (len, rest) := by
  simp only [List.append_assoc, readHeader]
  simp [readMagicLoop_self, readU32_enc, hdev, hlen, readPacketId_enc]

theorem writePacket_reqVersion :
    writePacket 0 .RequestProtocolVersion (encodeU32 DEFAULT_PROTOCOL) =
      .ok (MAGIC ++ encodeU32 0 ++ encodePacketId .RequestProtocolVersion ++
           encodeU32 4 ++ encodeU32 DEFAULT_PROTOCOL) := by decide

theorem openRGBNew_ok (s : Nat) (rest : List Nat) (hs : s < 4294967296) :
    openRGBNew (MAGIC ++ encodeU32 0 ++ encodePacketId .RequestProtocolVersion ++
        encodeU32 4 ++ encodeU32 s ++ rest) =
      .ok ({ protocol := min DEFAULT_PROTOCOL s },
           MAGIC ++ encodeU32 0 ++ encodePacketId .RequestProtocolVersion ++
             encodeU32 4 ++ encodeU32 DEFAULT_PROTOCOL, rest) := by
  unfold openRGBNew
  rw [writePacket_reqVersion, exceptOkBind]
  unfold readPacketU32
  simp only [List.append_assoc]
  rw [readHeader_ok DEFAULT_PROTOCOL 0 .RequestProtocolVersion 4 (encodeU32 s ++ rest)
      (by norm_num) (by norm_num), exceptOkBind]
  simp [readU32_enc s rest hs]

/-- C3 counterexample: at the concrete string "é" (UTF-8 bytes `[195, 169]`,
one character, two bytes) the standard string codec writes length prefix 3 =
byte count + 1, which exactly matches the three bytes that follow (2 UTF-8
bytes plus the zero terminator), and is NOT character count + 1 = 2: the
claim's byte-per-character accounting (and the mismatch it infers) is false. -/
theorem c3_counterexample :
    encodeString [195, 169] = encodeU16 3 ++ ([195, 169] ++ [0]) ∧
    ([195, 169] ++ [0]).length = 3 ∧
    validUtf8 [195, 169] = true ∧
    utf8CharCount [195, 169] + 1 = 2 ∧
    encodeString [195, 169] ≠ encodeU16 (utf8CharCount [195, 169] + 1) ++ ([195, 169] ++ [0]) := by
  decide

/-- C3 (amended): the standard string codec's 2-byte length prefix is the
UTF-8 BYTE count + 1 (Rust's `String::len` counts bytes, not characters), and
for every string whose byte count + 1 fits in a `u16` it exactly matches the
bytes written after it (UTF-8 bytes plus zero terminator) — including strings
with multi-byte UTF-8 characters.  Only the truncating `as u16` cast for byte
counts ≥ 65535 can make the prefix inconsistent. -/
theorem c3_string_length_accounting (s : List Nat) (h : s.length + 1 < 65536) :
    encodeString s = encodeU16 (s.length + 1) ++ (s ++ [0]) ∧
    (s ++ [0]).length = s.length + 1 := by
  constructor
  · unfold encodeString
    rw [Nat.mod_eq_of_lt h]
  · simp

theorem c3_witness :
    encodeString [195, 169] = encodeU16 ([195, 169].length + 1) ++ ([195, 169] ++ [0]) ∧
    ([195, 169] ++ [0]).length = [195, 169].length + 1 :=
  c3_string_length_accounting [195, 169] (by decide)

/-- C5: header validation.  The magic bytes are compared one at a time and a
mismatch fails immediately — independently of every byte after the mismatching
one — but the protocol error names the EXPECTED magic byte (the loop constant
`c`), not the offending byte that was read, which `protocol.rs` line 23
discards: at a stream starting with 88 the error carries 79.  Device-id and
packet-id mismatches do name both the expected and the actual value. -/
theorem c5_header_validation :
    (∀ rest, readHeader 3 0 .RequestProtocolVersion (88 :: rest) =
       .error (.magicMismatch 79)) ∧
    (∀ rest, readHeader 3 0 .RequestProtocolVersion (79 :: 82 :: 71 :: 67 :: rest) =
       .error (.magicMismatch 66)) ∧
    (∀ rest, readHeader 3 5 .RequestProtocolVersion (MAGIC ++ encodeU32 7 ++ rest) =
       .error (.deviceIdMismatch 5 7)) ∧
    (∀ rest, readHeader 3 0 .RequestProtocolVersion
        (MAGIC ++ encodeU32 0 ++ encodeU32 50 ++ rest) =
       .error (.packetIdMismatch .RequestProtocolVersion .SetClientName)) := by
  refine ⟨fun rest => ?_, fun rest => ?_, fun rest => ?_, fun rest => ?_⟩
  · simp [readHeader, MAGIC, readMagicLoop]
  · simp [readHeader, MAGIC, readMagicLoop]
  · simp only [List.append_assoc, readHeader]
    simp [readMagicLoop_self, readU32_enc 7 _ (by norm_num)]
  · simp only [List.append_assoc, readHeader]
    have h50 : PacketId.ofNat? 50 = some PacketId.SetClientName := rfl
    simp [readMagicLoop_self, readU32_enc 0 _ (by norm_num), readPacketId,
      readU32_enc 50 _ (by norm_num), h50]

theorem and_pow_eq_iff_testBit (n k : Nat) : n &&& 2 ^ k = 2 ^ k ↔ n.testBit k = true := by
  have hpos : 0 < 2 ^ k := pow_pos (by norm_num) k
  rw [Nat.and_two_pow]
  cases h : n.testBit k
  · simp only [Bool.toNat_false, Nat.zero_mul]
    constructor
    · intro heq; omega
    · intro heq; cases heq
  · simp

/-- C6: decoding a 32-bit flag-set integer with any bit outside the defined
vocabulary is a protocol error naming the value; with only known bits it
succeeds, and membership of each atomic flag is exactly the corresponding bit
of the integer; `154` decodes to exactly
{has-direction-LR, has-direction-HV, has-brightness, has-random-color}. -/
theorem c6_flagset_decode :
    (∀ n rest, n < 4294967296 → n &&& modeFlagFull ≠ n →
       readFlagSet (encodeU32 n ++ rest) = .error (.invalidFlagSet n)) ∧
    (∀ n rest, n < 4294967296 → n &&& modeFlagFull = n →
       readFlagSet (encodeU32 n ++ rest) = .ok (n, rest) ∧
       (∀ f : ModeFlag, f ≠ ModeFlag.HasDirection →
          (flagContains n f = true ↔ n.testBit f.bitIdx = true))) ∧
    (∀ rest, readFlagSet (encodeU32 154 ++ rest) = .ok (154, rest)) ∧
    flagContains 154 .HasDirectionLR = true ∧ flagContains 154 .HasDirectionHV = true ∧
    flagContains 154 .HasBrightness = true ∧ flagContains 154 .HasRandomColor = true ∧
    flagContains 154 .HasSpeed = false ∧ flagContains 154 .HasDirectionUD = false ∧
    flagContains 154 .HasDirection = false ∧ flagContains 154 .HasPerLEDColor = false ∧
    flagContains 154 .HasModeSpecificColor = false ∧ flagContains 154 .ManualSave = false ∧
    flagContains 154 .AutomaticSave = false := by
  refine ⟨fun n rest hn hv => readFlagSet_invalid n rest hn hv,
          fun n rest hn hv => ⟨readFlagSet_enc n rest hn hv, fun f hf => ?_⟩,
          fun rest => readFlagSet_enc 154 rest (by norm_num) (by decide),
          by decide, by decide, by decide, by decide, by decide, by decide,
          by decide, by decide, by decide, by decide, by decide⟩
  cases f
  case HasSpeed => simpa [flagContains, ModeFlag.bits, ModeFlag.bitIdx] using and_pow_eq_iff_testBit n 0
  case HasDirectionLR => simpa [flagContains, ModeFlag.bits, ModeFlag.bitIdx] using and_pow_eq_iff_testBit n 1
  case HasDirectionUD => simpa [flagContains, ModeFlag.bits, ModeFlag.bitIdx] using and_pow_eq_iff_testBit n 2
  case HasDirectionHV => simpa [flagContains, ModeFlag.bits, ModeFlag.bitIdx] using and_pow_eq_iff_testBit n 3
  case HasDirection => cases hf rfl
  case HasBrightness => simpa [flagContains, ModeFlag.bits, ModeFlag.bitIdx] using and_pow_eq_iff_testBit n 4
  case HasPerLEDColor => simpa [flagContains, ModeFlag.bits, ModeFlag.bitIdx] using and_pow_eq_iff_testBit n 5
  case HasModeSpecificColor => simpa [flagContains, ModeFlag.bits, ModeFlag.bitIdx] using and_pow_eq_iff_testBit n 6
  case HasRandomColor => simpa [flagContains, ModeFlag.bits, ModeFlag.bitIdx] using and_pow_eq_iff_testBit n 7
  case ManualSave => simpa [flagContains, ModeFlag.bits, ModeFlag.bitIdx] using and_pow_eq_iff_testBit n 8
  case AutomaticSave => simpa [flagContains, ModeFlag.bits, ModeFlag.bitIdx] using and_pow_eq_iff_testBit n 9

theorem c6_witness :
    readFlagSet (encodeU32 26 ++ []) = .ok (26, []) ∧
    (flagContains 26 ModeFlag.HasSpeed = true ↔ Nat.testBit 26 0 = true) ∧
    readFlagSet (encodeU32 1024 ++ []) = .error (.invalidFlagSet 1024) :=
  ⟨(c6_flagset_decode.2.1 26 [] (by norm_num) (by decide)).1,
   (c6_flagset_decode.2.1 26 [] (by norm_num) (by decide)).2 ModeFlag.HasSpeed (by decide),
   c6_flagset_decode.1 1024 [] (by norm_num) (by decide)⟩

theorem readN_length (rd : List Nat → RdResult α) (n : Nat) (s : List Nat)
    (xs : List α) (s₂ : List Nat) (h : readN rd n s = .ok (xs, s₂)) :
    xs.length = n := by
  induction n generalizing s xs s₂ with
  | zero =>
    simp only [readN] at h
    cases h
    rfl
  | succ k ih =>
    simp only [readN] at h
    cases hx : rd s with
    | error e => rw [hx] at h; cases h
    | ok v =>
      rw [hx, exceptOkBind] at h
      cases hxs : readN rd k v.2 with
      | error e => rw [hxs] at h; simp at h
      | ok w =>
        obtain ⟨ys, s₃⟩ := w
        rw [hxs] at h
        simp only [exceptOkBind] at h
        cases h
        rw [List.length_cons, ih _ _ _ hxs]

/-- C7: the sequence codec.  Encoding then decoding any sequence of at most
65535 round-trippable elements preserves order and count exactly; a sequence
of more than 65535 elements fails to encode with a protocol error (no
truncation, no panic); and decoding reads the 2-byte count then exactly that
many elements. -/
theorem c7_sequence_codec :
    (∀ (α : Type) (rd : List Nat → RdResult α) (enc : α → List Nat) (xs : List α),
       xs.length ≤ 65535 → (∀ x ∈ xs, RoundTrips rd enc x) →
       encodeVec enc xs = .ok (encodeU16 xs.length ++ (xs.map enc).flatten) ∧
       ∀ rest, readVec rd (encodeU16 xs.length ++ (xs.map enc).flatten ++ rest) =
         .ok (xs, rest)) ∧
    (∀ (α : Type) (enc : α → List Nat) (xs : List α),
       65535 < xs.length → encodeVec enc xs = .error .vecTooLarge) ∧
    (∀ (α : Type) (rd : List Nat → RdResult α) (s s₂ : List Nat) (n : Nat),
       readU16 s = .ok (n, s₂) → readVec rd s = readN rd n s₂) ∧
    (∀ (α : Type) (rd : List Nat → RdResult α) (n : Nat) (s s₂ : List Nat) (xs : List α),
       readN rd n s = .ok (xs, s₂) → xs.length = n) := by
  refine ⟨fun α rd enc xs hlen h =>
            ⟨encodeVec_ok enc xs (by omega), fun rest => readVec_enc rd enc xs (by omega) h rest⟩,
          fun α enc xs hlen => ?_,
          fun α rd s s₂ n h => ?_,
          fun α rd n s s₂ xs h => readN_length rd n s xs s₂ h⟩
  · unfold encodeVec
    rw [if_neg (by omega)]
  · unfold readVec
    rw [h, exceptOkBind]

theorem c7_witness :
    (encodeVec encodeU8 [1, 2, 3] = .ok (encodeU16 [1, 2, 3].length ++ ([1, 2, 3].map encodeU8).flatten) ∧
     ∀ rest, readVec readU8 (encodeU16 [1, 2, 3].length ++ ([1, 2, 3].map encodeU8).flatten ++ rest) =
       .ok ([1, 2, 3], rest)) ∧
    encodeVec encodeU8 (List.replicate 65536 0) = .error .vecTooLarge :=
  ⟨c7_sequence_codec.1 Nat readU8 encodeU8 [1, 2, 3] (by decide)
     (fun x _ => fun rest => rfl),
   c7_sequence_codec.2.1 Nat encodeU8 (List.replicate 65536 0)
     (by rw [List.length_replicate]; norm_num)⟩

/-- C8: every profile operation on a client whose negotiated version is below
2, and save-mode on a client below 3, returns an unsupported-operation error
carrying the operation name, the current version and the required minimum,
and writes nothing to the connection. -/
theorem c8_version_gating (c : Client) (log : List Nat) :
    (c.protocol < 2 →
       getProfilesOp c log = (log, some (.unsupportedOperation profileControlName c.protocol 2)) ∧
       (∀ name, loadProfileOp c name log =
          (log, some (.unsupportedOperation profileControlName c.protocol 2))) ∧
       (∀ name, saveProfileOp c name log =
          (log, some (.unsupportedOperation profileControlName c.protocol 2))) ∧
       (∀ name, deleteProfileOp c name log =
          (log, some (.unsupportedOperation profileControlName c.protocol 2)))) ∧
    (c.protocol < 3 →
       ∀ controllerId m, saveModeOp c controllerId m log =
         (log, some (.unsupportedOperation savingModesName c.protocol 3))) := by
  constructor
  · intro h
    refine ⟨?_, fun name => ?_, fun name => ?_, fun name => ?_⟩ <;>
      simp [getProfilesOp, loadProfileOp, saveProfileOp, deleteProfileOp,
        runGatedWrite, checkProtocolVersionProfileControl, h]
  · intro h controllerId m
    simp [saveModeOp, runGatedWrite, checkProtocolVersionSavingModes, h]

theorem c8_witness :
    getProfilesOp { protocol := 1 } [] =
      ([], some (.unsupportedOperation profileControlName 1 2)) ∧
    saveModeOp { protocol := 2 } 0 modeColorModeNone [] =
      ([], some (.unsupportedOperation savingModesName 2 3)) :=
  ⟨((c8_version_gating { protocol := 1 } []).1 (by decide)).1,
   (c8_version_gating { protocol := 2 } []).2 (by decide) 0 modeColorModeNone⟩

/-- C9: Zone decode.  With matrix-section length 0 the zone has no matrix;
with any non-zero section length it reads a height, a width and
`height * width` 32-bit cells and reconstructs them in row-major order. -/
theorem c9_zone_decode (p : Nat) (name : List Nat) (zt : ZoneType)
    (lmin lmax lcnt : Nat) (rest : List Nat)
    (hname : validUtf8 name = true) (hnlen : name.length + 1 < 65536)
    (hlmin : lmin < 4294967296) (hlmax : lmax < 4294967296) (hlcnt : lcnt < 4294967296) :
    (readZone p (encodeString name ++ encodeZoneType zt ++ encodeU32 lmin ++
        encodeU32 lmax ++ encodeU32 lcnt ++ encodeU16 0 ++ rest) =
      .ok ({ name := name, ztype := zt, leds_min := lmin, leds_max := lmax,
             leds_count := lcnt, matrix := none }, rest)) ∧
    (∀ mlen h w cells, mlen < 65536 → mlen ≠ 0 →
       h < 4294967296 → w < 4294967296 →
       cells.length = h * w → (∀ c ∈ cells, c < 4294967296) →
       readZone p (encodeString name ++ encodeZoneType zt ++ encodeU32 lmin ++
           encodeU32 lmax ++ encodeU32 lcnt ++ encodeU16 mlen ++ encodeU32 h ++
           encodeU32 w ++ (cells.map encodeU32).flatten ++ rest) =
         .ok ({ name := name, ztype := zt, leds_min := lmin, leds_max := lmax,
                leds_count := lcnt, matrix := some (rowMajor cells h w) }, rest)) :=
  ⟨readZone_wire_noMatrix p name zt lmin lmax lcnt rest hname hnlen hlmin hlmax hlcnt,
   fun mlen h w cells hmlen hm0 hh hw hcells hcv =>
     readZone_wire_matrix p name zt lmin lmax lcnt mlen h w cells rest hname hnlen
       hlmin hlmax hlcnt hmlen hm0 hh hw hcells hcv⟩

theorem c9_witness :
    readZone 3 (encodeString [116, 101, 115, 116] ++ encodeZoneType .linear ++
        encodeU32 3 ++ encodeU32 18 ++ encodeU32 15 ++ encodeU16 32 ++ encodeU32 2 ++
        encodeU32 3 ++ ([0, 1, 2, 3, 4, 5].map encodeU32).flatten ++ []) =
      .ok ({ name := [116, 101, 115, 116], ztype := .linear, leds_min := 3,
             leds_max := 18, leds_count := 15,
             matrix := some (rowMajor [0, 1, 2, 3, 4, 5] 2 3) }, []) ∧
    rowMajor [0, 1, 2, 3, 4, 5] 2 3 = [[0, 1, 2], [3, 4, 5]] :=
  ⟨(c9_zone_decode 3 [116, 101, 115, 116] .linear 3 18 15 [] (by decide) (by decide)
      (by norm_num) (by norm_num) (by norm_num)).2 32 2 3 [0, 1, 2, 3, 4, 5]
      (by norm_num) (by norm_num) (by norm_num) (by norm_num) (by decide)
      (by decide),
   by decide⟩

/-- C4: protocol negotiation.  For every server-reported maximum `s`, the
connection handshake writes the version-request packet (encoded at the fixed
client maximum `DEFAULT_PROTOCOL = 3`), reads the server's reply, and the
negotiated version — returned by `get_protocol_version` — is
`min DEFAULT_PROTOCOL s`, i.e. `min 3 s`. -/
theorem c4_negotiation (s : Nat) (rest : List Nat) (hs : s < 4294967296) :
    openRGBNew (MAGIC ++ encodeU32 0 ++ encodePacketId .RequestProtocolVersion ++
        encodeU32 4 ++ encodeU32 s ++ rest) =
      .ok ({ protocol := min DEFAULT_PROTOCOL s },
           MAGIC ++ encodeU32 0 ++ encodePacketId .RequestProtocolVersion ++
             encodeU32 4 ++ encodeU32 DEFAULT_PROTOCOL, rest) ∧
    getProtocolVersion { protocol := min DEFAULT_PROTOCOL s } = min 3 s ∧
    DEFAULT_PROTOCOL = 3 :=
  ⟨openRGBNew_ok s rest hs, rfl, rfl⟩

theorem c4_witness :
    openRGBNew (MAGIC ++ encodeU32 0 ++ encodePacketId .RequestProtocolVersion ++
        encodeU32 4 ++ encodeU32 2 ++ []) =
      .ok ({ protocol := min DEFAULT_PROTOCOL 2 },
           MAGIC ++ encodeU32 0 ++ encodePacketId .RequestProtocolVersion ++
             encodeU32 4 ++ encodeU32 DEFAULT_PROTOCOL, []) ∧
    getProtocolVersion { protocol := min DEFAULT_PROTOCOL 2 } = min 3 2 ∧
    getProtocolVersion { protocol := min DEFAULT_PROTOCOL 3 } = min 3 3 ∧
    min DEFAULT_PROTOCOL 2 = 2 ∧ min DEFAULT_PROTOCOL 3 = 3 :=
  ⟨(c4_negotiation 2 [] (by norm_num)).1,
   (c4_negotiation 2 [] (by norm_num)).2.1,
   (c4_negotiation 3 [] (by norm_num)).2.1,
   by decide, by decide⟩

theorem and14_iff (n : Nat) :
    n &&& 14 = 14 ↔ (n.testBit 1 = true ∧ n.testBit 2 = true ∧ n.testBit 3 = true) := by
  constructor
  · intro h
    refine ⟨?_, ?_, ?_⟩
    · have h1 := congrArg (fun m : Nat => m.testBit 1) h
      simpa [Nat.testBit_and, (by decide : Nat.testBit 14 1 = true)] using h1
    · have h2 := congrArg (fun m : Nat => m.testBit 2) h
      simpa [Nat.testBit_and, (by decide : Nat.testBit 14 2 = true)] using h2
    · have h3 := congrArg (fun m : Nat => m.testBit 3) h
      simpa [Nat.testBit_and, (by decide : Nat.testBit 14 3 = true)] using h3
  · rintro ⟨h1, h2, h3⟩
    apply Nat.eq_of_testBit_eq
    intro i
    rw [Nat.testBit_and]
    match i with
    | 0 => simp
    | 1 => simp [h1]
    | 2 => simp [h2]
    | 3 => simp [h3]
    | (k + 4) =>
      have hf : (14 : Nat).testBit (k + 4) = false := by
        apply Nat.testBit_lt_two_pow
        calc (14 : Nat) < 2 ^ 4 := by norm_num
          _ ≤ 2 ^ (k + 4) := Nat.pow_le_pow_right (by norm_num) (by omega)
      simp [hf]

theorem flagContains_hasDirection_iff (flags : Nat) :
    flagContains flags ModeFlag.HasDirection = true ↔
      (flagContains flags .HasDirectionLR = true ∧
       flagContains flags .HasDirectionUD = true ∧
       flagContains flags .HasDirectionHV = true) := by
  have h2 := and_pow_eq_iff_testBit flags 1
  have h4 := and_pow_eq_iff_testBit flags 2
  have h8 := and_pow_eq_iff_testBit flags 3
  norm_num at h2 h4 h8
  simp only [flagContains, ModeFlag.bits, beq_iff_eq]
  rw [and14_iff, h2, h4, h8]

/-- C10: in `Mode::read` the direction field is `Some` only when the flag set
contains the full `HasDirection` union — all three of LR, UD, HV
simultaneously (`HasDirection` = their OR, bits `0b1110`) — and for every flag
set not containing the full union (in particular any proper, non-empty subset
of the three bits) the decoded direction is `None`, while the direction wire
slot is still consumed and its value (here arbitrary, possibly an invalid
ordinal) is not validated. -/
theorem c10_direction_union (p : Nat) (name : List Nat) (value : Int)
    (flags sm sM bm bM cmin cmax sp br dir : Nat) (cmode : ColorMode)
    (colors : List Color) (rest : List Nat)
    (hwf : WireFieldsWF name value flags sm sM bm bM cmin cmax sp br dir colors) :
    (flagContains flags ModeFlag.HasDirection = true ↔
       (flagContains flags .HasDirectionLR = true ∧
        flagContains flags .HasDirectionUD = true ∧
        flagContains flags .HasDirectionHV = true)) ∧
    (flagContains flags ModeFlag.HasDirection = false →
       readMode p (modeWire p name value flags sm sM bm bM cmin cmax sp br dir cmode colors ++ rest) =
         .ok ({ name := name, value := value, flags := flags,
                speed_min := if flagContains flags .HasSpeed then some sm else none,
                speed_max := if flagContains flags .HasSpeed then some sM else none,
                speed := if flagContains flags .HasSpeed then some sp else none,
                brightness_min := if flagContains flags .HasBrightness then (if 3 ≤ p then some bm else none) else none,
                brightness_max := if flagContains flags .HasBrightness then (if 3 ≤ p then some bM else none) else none,
                brightness := if flagContains flags .HasBrightness then (if 3 ≤ p then some br else none) else none,
                color_mode := some cmode, colors := colors,
                colors_min := if colors.isEmpty then none else some cmin,
                colors_max := if colors.isEmpty then none else some cmax,
                direction := none }, rest)) :=
  ⟨flagContains_hasDirection_iff flags,
   fun hnd => readMode_wire_noDir p name value flags sm sM bm bM cmin cmax sp br dir
     cmode colors rest hwf hnd⟩

theorem c10_witness :
    readMode 3 (modeWire 3 [] 0 2 0 0 0 0 0 0 0 0 99 .perLED [] ++ []) =
      .ok ({ name := [], value := 0, flags := 2,
             speed_min := if flagContains 2 .HasSpeed then some 0 else none,
             speed_max := if flagContains 2 .HasSpeed then some 0 else none,
             speed := if flagContains 2 .HasSpeed then some 0 else none,
             brightness_min := if flagContains 2 .HasBrightness then (if 3 ≤ 3 then some 0 else none) else none,
             brightness_max := if flagContains 2 .HasBrightness then (if 3 ≤ 3 then some 0 else none) else none,
             brightness := if flagContains 2 .HasBrightness then (if 3 ≤ 3 then some 0 else none) else none,
             color_mode := some .perLED, colors := [],
             colors_min := if List.isEmpty ([] : List Color) then none else some 0,
             colors_max := if List.isEmpty ([] : List Color) then none else some 0,
             direction := none }, []) ∧
    Direction.ofNat? 99 = none :=
  ⟨(c10_direction_union 3 [] 0 2 0 0 0 0 0 0 0 0 99 .perLED [] []
      (by refine ⟨by decide, by decide, by decide, by decide, by decide, ?_, ?_, ?_, ?_, ?_, ?_, ?_, ?_, ?_, ?_⟩ <;> norm_num)).2
    (by decide),
   by decide⟩

/-- C2: `Mode::read` reinterprets the raw wire fields into optional values:
the three speed fields are `Some` exactly when the has-speed flag is set; the
three brightness fields are `Some` exactly when the has-brightness flag is set
AND the protocol is at least 3 (below 3 they are absent from the wire and
always `None`); `colors_min`/`colors_max` are `Some` exactly when the decoded
color sequence is non-empty; direction is `Some` exactly when the
has-direction flag is contained, in which case an unknown direction ordinal is
a protocol error; `color_mode` is always `Some`.  The same raw fields decoded
at protocol 2 instead of 3 (brightness slots absent from the wire) give the
same mode with the brightness fields `None` and everything else unaffected. -/
theorem c2_mode_reinterpretation (p : Nat) (name : List Nat) (value : Int)
    (flags sm sM bm bM cmin cmax sp br dir : Nat) (cmode : ColorMode)
    (colors : List Color) (rest : List Nat)
    (hwf : WireFieldsWF name value flags sm sM bm bM cmin cmax sp br dir colors) :
    (∀ d, flagContains flags ModeFlag.HasDirection = true → Direction.ofNat? dir = some d →
       readMode p (modeWire p name value flags sm sM bm bM cmin cmax sp br dir cmode colors ++ rest) =
         .ok ({ name := name, value := value, flags := flags,
                speed_min := if flagContains flags .HasSpeed then some sm else none,
                speed_max := if flagContains flags .HasSpeed then some sM else none,
                speed := if flagContains flags .HasSpeed then some sp else none,
                brightness_min := if 3 ≤ p ∧ flagContains flags .HasBrightness = true then some bm else none,
                brightness_max := if 3 ≤ p ∧ flagContains flags .HasBrightness = true then some bM else none,
                brightness := if 3 ≤ p ∧ flagContains flags .HasBrightness = true then some br else none,
                color_mode := some cmode, colors := colors,
                colors_min := if colors.isEmpty then none else some cmin,
                colors_max := if colors.isEmpty then none else some cmax,
                direction := some d }, rest)) ∧
    (flagContains flags ModeFlag.HasDirection = false →
       readMode p (modeWire p name value flags sm sM bm bM cmin cmax sp br dir cmode colors ++ rest) =
         .ok ({ name := name, value := value, flags := flags,
                speed_min := if flagContains flags .HasSpeed then some sm else none,
                speed_max := if flagContains flags .HasSpeed then some sM else none,
                speed := if flagContains flags .HasSpeed then some sp else none,
                brightness_min := if 3 ≤ p ∧ flagContains flags .HasBrightness = true then some bm else none,
                brightness_max := if 3 ≤ p ∧ flagContains flags .HasBrightness = true then some bM else none,
                brightness := if 3 ≤ p ∧ flagContains flags .HasBrightness = true then some br else none,
                color_mode := some cmode, colors := colors,
                colors_min := if colors.isEmpty then none else some cmin,
                colors_max := if colors.isEmpty then none else some cmax,
                direction := none }, rest)) ∧
    (flagContains flags ModeFlag.HasDirection = true → Direction.ofNat? dir = none →
       readMode p (modeWire p name value flags sm sM bm bM cmin cmax sp br dir cmode colors ++ rest) =
         .error (.unknownDirection dir)) ∧
    (∀ m₃ r₃, readMode 3 (modeWire 3 name value flags sm sM bm bM cmin cmax sp br dir cmode colors ++ rest) =
         .ok (m₃, r₃) →
       readMode 2 (modeWire 2 name value flags sm sM bm bM cmin cmax sp br dir cmode colors ++ rest) =
         .ok ({ m₃ with brightness_min := none, brightness_max := none,
                        brightness := none }, r₃)) := by
  refine ⟨fun d hd hdir => ?_, fun hnd => ?_, fun hd hdir => ?_, fun m₃ r₃ h₃ => ?_⟩
  · rw [readMode_wire_dir p name value flags sm sM bm bM cmin cmax sp br dir cmode colors
        rest d hwf hd hdir]
    by_cases hb : flagContains flags ModeFlag.HasBrightness = true <;>
      by_cases hp3 : 3 ≤ p <;> simp [hb, hp3]
  · rw [readMode_wire_noDir p name value flags sm sM bm bM cmin cmax sp br dir cmode colors
        rest hwf hnd]
    by_cases hb : flagContains flags ModeFlag.HasBrightness = true <;>
      by_cases hp3 : 3 ≤ p <;> simp [hb, hp3]
  · exact readMode_wire_badDir p name value flags sm sM bm bM cmin cmax sp br dir cmode colors
      rest hwf hd hdir
  · by_cases hd : flagContains flags ModeFlag.HasDirection = true
    · cases hdir : Direction.ofNat? dir with
      | some d =>
        rw [readMode_wire_dir 3 name value flags sm sM bm bM cmin cmax sp br dir cmode colors
            rest d hwf hd hdir] at h₃
        rw [readMode_wire_dir 2 name value flags sm sM bm bM cmin cmax sp br dir cmode colors
            rest d hwf hd hdir]
        simp only [Except.ok.injEq, Prod.mk.injEq] at h₃
        obtain ⟨hm, hr⟩ := h₃
        subst hm
        subst hr
        simp
      | none =>
        rw [readMode_wire_badDir 3 name value flags sm sM bm bM cmin cmax sp br dir cmode colors
            rest hwf hd hdir] at h₃
        cases h₃
    · have hnd : flagContains flags ModeFlag.HasDirection = false := by
        simpa using hd
      rw [readMode_wire_noDir 3 name value flags sm sM bm bM cmin cmax sp br dir cmode colors
          rest hwf hnd] at h₃
      rw [readMode_wire_noDir 2 name value flags sm sM bm bM cmin cmax sp br dir cmode colors
          rest hwf hnd]
      simp only [Except.ok.injEq, Prod.mk.injEq] at h₃
      obtain ⟨hm, hr⟩ := h₃
      subst hm
      subst hr
      simp

theorem c2_witness :
    readMode 3 (modeWire 3 [116, 101, 115, 116] 46 31 10 1000 1 1024 0 256 51 512 4
        .perLED [{ r := 37, g := 54, b := 126 }] ++ []) =
      .ok ({ name := [116, 101, 115, 116], value := 46, flags := 31,
             speed_min := if flagContains 31 .HasSpeed then some 10 else none,
             speed_max := if flagContains 31 .HasSpeed then some 1000 else none,
             speed := if flagContains 31 .HasSpeed then some 51 else none,
             brightness_min := if 3 ≤ 3 ∧ flagContains 31 .HasBrightness = true then some 1 else none,
             brightness_max := if 3 ≤ 3 ∧ flagContains 31 .HasBrightness = true then some 1024 else none,
             brightness := if 3 ≤ 3 ∧ flagContains 31 .HasBrightness = true then some 512 else none,
             color_mode := some .perLED, colors := [{ r := 37, g := 54, b := 126 }],
             colors_min := if List.isEmpty [({ r := 37, g := 54, b := 126 } : Color)] then none else some 0,
             colors_max := if List.isEmpty [({ r := 37, g := 54, b := 126 } : Color)] then none else some 256,
             direction := some .horizontal }, []) :=
  (c2_mode_reinterpretation 3 [116, 101, 115, 116] 46 31 10 1000 1 1024 0 256 51 512 4
      .perLED [{ r := 37, g := 54, b := 126 }] []
      (by refine ⟨by decide, by decide, by decide, by decide, by decide,
            ?_, ?_, ?_, ?_, ?_, ?_, ?_, ?_, ?_, ?_⟩ <;> norm_num)).1
    .horizontal (by decide) (by decide)

theorem opt_if_getD (o : Option α) (b : Bool) (dflt : α) (h : o.isSome = b) :
    (if b = true then some (o.getD dflt) else none) = o := by
  cases o <;> cases b <;> simp_all

theorem opt_if_not_getD (o : Option α) (b : Bool) (dflt : α) (h : o.isSome = !b) :
    (if b = true then none else some (o.getD dflt)) = o := by
  cases o <;> cases b <;> simp_all

theorem opt_if2_getD (o : Option α) (b : Bool) (c : Prop) [Decidable c] (dflt : α)
    (h : o.isSome = (b && decide c)) :
    (if b = true then (if c then some (o.getD dflt) else none) else none) = o := by
  cases o <;> cases b <;> by_cases hc : c <;> simp_all

theorem opt_some_getD (o : Option α) (dflt : α) (h : o.isSome = true) :
    some (o.getD dflt) = o := by
  cases o <;> simp_all

theorem optGetD_lt (o : Option Nat) (h : ∀ x ∈ o, x < 4294967296) :
    o.getD 0 < 4294967296 := by
  cases o with
  | none => norm_num
  | some x => simpa using h x (by simp)

theorem encodeMode_eq_wire (p : Nat) (m : Mode) (hlen : m.colors.length < 65536) :
    encodeMode p m =
      .ok (modeWire p m.name m.value m.flags (m.speed_min.getD 0) (m.speed_max.getD 0)
        (m.brightness_min.getD 0) (m.brightness_max.getD 0) (m.colors_min.getD 0)
        (m.colors_max.getD 0) (m.speed.getD 0) (m.brightness.getD 0)
        ((m.direction.getD .left).toNat) (m.color_mode.getD .noColor) m.colors) := by
  unfold encodeMode modeWire encodeDirection
  rw [encodeVec_ok encodeColor m.colors hlen, exceptOkBind]
  simp [List.append_assoc]

theorem canonicalMode_roundTrip (p : Nat) (m : Mode) (hc : CanonicalMode p m) :
    ∃ bs, encodeMode p m = .ok bs ∧ ∀ rest, readMode p (bs ++ rest) = .ok (m, rest) := by
  obtain ⟨nm, v, fl, smin, smax, spd, bmin, bmax, brt, cmo, cols, cmino, cmaxo, diro⟩ := m
  obtain ⟨h1, h2, h3, h4, h5, h6, h7, h8, h9, h10, h11, h12, h13, hs1, hs2, hs3,
    hb1, hb2, hb3, hc1, hc2, hdio, hcm, hclen⟩ := hc
  refine ⟨_, encodeMode_eq_wire p _ hclen, fun rest => ?_⟩
  have hwf : WireFieldsWF nm v fl (smin.getD 0) (smax.getD 0) (bmin.getD 0) (bmax.getD 0)
      (cmino.getD 0) (cmaxo.getD 0) (spd.getD 0) (brt.getD 0)
      ((diro.getD .left).toNat) cols :=
    ⟨h1, h2, h3, h4, h5, optGetD_lt smin h6, optGetD_lt smax h7, optGetD_lt bmin h9,
     optGetD_lt bmax h10, optGetD_lt cmino h12, optGetD_lt cmaxo h13, optGetD_lt spd h8,
     optGetD_lt brt h11, directionToNat_lt _, hclen⟩
  by_cases hd : flagContains fl ModeFlag.HasDirection = true
  · have hds : diro.isSome = true := by
      rw [show diro.isSome = flagContains fl ModeFlag.HasDirection from hdio, hd]
    obtain ⟨d, hdval⟩ := Option.isSome_iff_exists.mp hds
    subst hdval
    rw [readMode_wire_dir p nm v fl (smin.getD 0) (smax.getD 0) (bmin.getD 0) (bmax.getD 0)
        (cmino.getD 0) (cmaxo.getD 0) (spd.getD 0) (brt.getD 0)
        (((some d).getD Direction.left).toNat) (cmo.getD .noColor) cols rest d hwf hd
        (by simpa using directionOfNat_toNat d)]
    refine congrArg (fun z => Except.ok (z, rest)) ?_
    rw [Mode.mk.injEq]
    exact ⟨rfl, rfl, rfl, opt_if_getD smin _ 0 hs1, opt_if_getD smax _ 0 hs2,
      opt_if_getD spd _ 0 hs3, opt_if2_getD bmin _ _ 0 hb1, opt_if2_getD bmax _ _ 0 hb2,
      opt_if2_getD brt _ _ 0 hb3, opt_some_getD cmo _ hcm, rfl,
      opt_if_not_getD cmino _ 0 hc1, opt_if_not_getD cmaxo _ 0 hc2, rfl⟩
  · have hnd : flagContains fl ModeFlag.HasDirection = false := by
      simpa using hd
    have hds : diro.isSome = false := by
      rw [show diro.isSome = flagContains fl ModeFlag.HasDirection from hdio, hnd]
    have hdnone : diro = none := by
      cases diro with
      | none => rfl
      | some x => simp at hds
    subst hdnone
    rw [readMode_wire_noDir p nm v fl (smin.getD 0) (smax.getD 0) (bmin.getD 0) (bmax.getD 0)
        (cmino.getD 0) (cmaxo.getD 0) (spd.getD 0) (brt.getD 0)
        ((Option.getD none Direction.left).toNat) (cmo.getD .noColor) cols rest hwf hnd]
    refine congrArg (fun z => Except.ok (z, rest)) ?_
    rw [Mode.mk.injEq]
    exact ⟨rfl, rfl, rfl, opt_if_getD smin _ 0 hs1, opt_if_getD smax _ 0 hs2,
      opt_if_getD spd _ 0 hs3, opt_if2_getD bmin _ _ 0 hb1, opt_if2_getD bmax _ _ 0 hb2,
      opt_if2_getD brt _ _ 0 hb3, opt_some_getD cmo _ hcm, rfl,
      opt_if_not_getD cmino _ 0 hc1, opt_if_not_getD cmaxo _ 0 hc2, rfl⟩

/-- C1 counterexample: the concrete `Mode` value with `color_mode = None` (a
value the public Rust struct admits) does NOT round-trip at protocol 3:
`Mode::write` writes the default ordinal 0 in the always-present color-mode
slot and `Mode::read` unconditionally wraps it in `Some`, so decode of encode
yields `color_mode = Some(ColorMode::None) ≠ None`. -/
theorem c1_counterexample :
    (encodeMode 3 modeColorModeNone >>= readMode 3) =
      .ok ({ modeColorModeNone with color_mode := some ColorMode.noColor }, []) ∧
    ({ modeColorModeNone with color_mode := some ColorMode.noColor } : Mode) ≠
      modeColorModeNone := by
  decide

/-- C1 (amended): decode-of-encode is the identity for every type with both
paths — unit, u8, u16, u32, i32, usize, String, tuples of 2-4 encodables,
length-prefixed sequences, Color, the ModeFlag set, DeviceType, Direction,
PacketId and Mode — for values the corresponding Rust type can hold (machine-
integer ranges, valid flag bits, valid UTF-8), whenever encoding succeeds,
with a String's byte count + 1 within `u16` range, and with a `Mode` whose
optional fields are populated exactly per its documented flag/color/version
conditions (in particular `color_mode` must be `Some`: values violating those
conditions, which `Mode::read` never produces, do not round-trip). -/
theorem c1_roundtrip_amended :
    (∀ rest : List Nat, readUnit (encodeUnit ++ rest) = .ok ((), rest)) ∧
    (∀ (n : Nat) (rest : List Nat), n < 256 → readU8 (encodeU8 n ++ rest) = .ok (n, rest)) ∧
    (∀ (n : Nat) (rest : List Nat), n < 65536 → readU16 (encodeU16 n ++ rest) = .ok (n, rest)) ∧
    (∀ (n : Nat) (rest : List Nat), n < 4294967296 →
       readU32 (encodeU32 n ++ rest) = .ok (n, rest)) ∧
    (∀ (v : Int) (rest : List Nat), -2147483648 ≤ v → v < 2147483648 →
       readI32 (encodeI32 v ++ rest) = .ok (v, rest)) ∧
    (∀ (n : Nat) (bs rest : List Nat), encodeUsize n = .ok bs →
       readUsize (bs ++ rest) = .ok (n, rest)) ∧
    (∀ (s rest : List Nat), validUtf8 s = true → s.length + 1 < 65536 →
       readString (encodeString s ++ rest) = .ok (s, rest)) ∧
    (∀ (α β : Type) (rdA : List Nat → RdResult α) (encA : α → List Nat)
       (rdB : List Nat → RdResult β) (encB : β → List Nat) (a : α) (b : β),
       RoundTrips rdA encA a → RoundTrips rdB encB b →
       RoundTrips (readPair rdA rdB) (encodePair encA encB) (a, b)) ∧
    (∀ (α β γ : Type) (rdA : List Nat → RdResult α) (encA : α → List Nat)
       (rdB : List Nat → RdResult β) (encB : β → List Nat)
       (rdC : List Nat → RdResult γ) (encC : γ → List Nat) (a : α) (b : β) (c : γ),
       RoundTrips rdA encA a → RoundTrips rdB encB b → RoundTrips rdC encC c →
       RoundTrips (readTriple rdA rdB rdC) (encodeTriple encA encB encC) (a, b, c)) ∧
    (∀ (α β γ δ : Type) (rdA : List Nat → RdResult α) (encA : α → List Nat)
       (rdB : List Nat → RdResult β) (encB : β → List Nat)
       (rdC : List Nat → RdResult γ) (encC : γ → List Nat)
       (rdD : List Nat → RdResult δ) (encD : δ → List Nat) (a : α) (b : β) (c : γ) (d : δ),
       RoundTrips rdA encA a → RoundTrips rdB encB b → RoundTrips rdC encC c →
       RoundTrips rdD encD d →
       RoundTrips (readQuad rdA rdB rdC rdD) (encodeQuad encA encB encC encD) (a, b, c, d)) ∧
    (∀ (α : Type) (rd : List Nat → RdResult α) (enc : α → List Nat) (xs : List α),
       xs.length ≤ 65535 → (∀ x ∈ xs, RoundTrips rd enc x) →
       ∃ bs, encodeVec enc xs = .ok bs ∧ ∀ rest, readVec rd (bs ++ rest) = .ok (xs, rest)) ∧
    (∀ (c : Color) (rest : List Nat), readColor (encodeColor c ++ rest) = .ok (c, rest)) ∧
    (∀ (f : Nat) (rest : List Nat), f < 4294967296 → f &&& modeFlagFull = f →
       readFlagSet (encodeFlagSet f ++ rest) = .ok (f, rest)) ∧
    (∀ (d : DeviceType) (rest : List Nat),
       readDeviceType (encodeDeviceType d ++ rest) = .ok (d, rest)) ∧
    (∀ (d : Direction) (rest : List Nat),
       readDirection (encodeDirection d ++ rest) = .ok (d, rest)) ∧
    (∀ (pid : PacketId) (rest : List Nat),
       readPacketId (encodePacketId pid ++ rest) = .ok (pid, rest)) ∧
    (∀ (p : Nat) (m : Mode), CanonicalMode p m →
       ∃ bs, encodeMode p m = .ok bs ∧ ∀ rest, readMode p (bs ++ rest) = .ok (m, rest)) := by
  refine ⟨fun rest => rfl,
    fun n rest _ => rfl,
    fun n rest h => readU16_enc n rest h,
    fun n rest h => readU32_enc n rest h,
    fun v rest h0 h1 => readI32_enc v rest h0 h1,
    fun n bs rest h => readUsize_enc n bs rest h,
    fun s rest hv hl => readString_enc s rest hv hl,
    fun α β rdA encA rdB encB a b hA hB rest => ?_,
    fun α β γ rdA encA rdB encB rdC encC a b c hA hB hC rest => ?_,
    fun α β γ δ rdA encA rdB encB rdC encC rdD encD a b c d hA hB hC hD rest => ?_,
    fun α rd enc xs hlen h =>
      ⟨encodeU16 xs.length ++ (xs.map enc).flatten, encodeVec_ok enc xs (by omega),
       fun rest => readVec_enc rd enc xs (by omega) h rest⟩,
    fun c rest => readColor_enc c rest,
    fun f rest hf hv => readFlagSet_enc f rest hf hv,
    fun d rest => readDeviceType_enc d rest,
    fun d rest => readDirection_enc d rest,
    fun pid rest => readPacketId_enc pid rest,
    fun p m hc => canonicalMode_roundTrip p m hc⟩
  · simp only [encodePair, readPair, List.append_assoc]
    rw [hA, exceptOkBind, hB, exceptOkBind]
  · simp only [encodeTriple, readTriple, List.append_assoc]
    rw [hA, exceptOkBind, hB, exceptOkBind, hC, exceptOkBind]
  · simp only [encodeQuad, readQuad, List.append_assoc]
    rw [hA, exceptOkBind, hB, exceptOkBind, hC, exceptOkBind, hD, exceptOkBind]

theorem c1_witness :
    readU16 (encodeU16 37 ++ [9]) = .ok (37, [9]) ∧
    (∃ bs, encodeMode 3 modeCanonicalW = .ok bs ∧
       ∀ rest, readMode 3 (bs ++ rest) = .ok (modeCanonicalW, rest)) :=
  ⟨c1_roundtrip_amended.2.2.1 37 [9] (by norm_num),
   c1_roundtrip_amended.2.2.2.2.2.2.2.2.2.2.2.2.2.2.2.2 3 modeCanonicalW
     (by refine ⟨by decide, by decide, by decide, by decide, by decide, ?_, ?_, ?_, ?_, ?_,
           ?_, ?_, ?_, by decide, by decide, by decide, by decide, by decide, by decide,
           by decide, by decide, by decide, by decide, by decide⟩ <;> simp [modeCanonicalW])⟩
